import Mathlib

set_option linter.unusedVariables false

/-!
A verification development for the semantic-analysis (type-checking) core in
`src/typechecker.rs`.  The Rust data types and functions are embedded shallowly:

* machine integers become `Int`/`Nat`, with Rust `as` casts embedded as explicit
  two's-complement wrapping functions;
* functions taking `&mut Project` are embedded in state-passing style, returning
  the updated `Project`; functions taking `&Project` thread the project through
  unchanged;
* a `panic!` (or an `expect` failure, or an out-of-range vector index) is
  embedded as the `none` result of an `Option`-returning function;
* the `while` loops that walk the scope parent chain, and the recursive checker
  functions, take an explicit fuel argument; running out of fuel is also the
  `none` result.  Fuel is pure instrumentation: each source-level step consumes
  one unit.

Data types owned by the parser, the lexer and the error module are not part of
the checked source file; they are modelled from the specification (their doc
comments say so).  All the semantic logic below is translated directly from
`src/typechecker.rs`.
-/

/-- Modelled from the spec: source locations are opaque `Span` values produced
by the lexer and passed through to diagnostics (§1, §6); a span carries a file
id and a start/end offset pair. -/
structure Span where
  file_id : Nat
  start : Nat
  stop : Nat
deriving DecidableEq, Repr

instance : Inhabited Span := ⟨⟨0, 0, 0⟩⟩

/-- Modelled from the spec (§6): diagnostics from this pass are
`TypecheckError(message, span)` values; the error module's other variants never
arise in the type checker. -/
inductive JaktError where
  | TypecheckError (message : String) (span : Span)
deriving DecidableEq, Repr

/-- Embeds `pub type StructId = usize;` -/
abbrev StructId := Nat

/-- Embeds `pub type FunctionId = usize;` -/
abbrev FunctionId := Nat

/-- Embeds `pub type ScopeId = usize;` -/
abbrev ScopeId := Nat

/-- Embeds `enum SafetyMode { Safe, Unsafe }` -/
inductive SafetyMode where
  | Safe
  | Unsafe
deriving DecidableEq, Repr

/-- Modelled from the spec: the parser's linkage tag for record definitions,
carried through unchanged by the checker (§3.5). -/
inductive DefinitionLinkage where
  | Internal
  | External
deriving DecidableEq, Repr

/-- Modelled from the spec: the parser's definition-kind tag for records,
carried through unchanged by the checker (§3.5). -/
inductive DefinitionType where
  | Class
  | Struct
deriving DecidableEq, Repr

/-- Modelled from the spec: the parser's linkage tag for functions; the
checker itself only constructs `ImplicitConstructor` (§3.6). -/
inductive FunctionLinkage where
  | Internal
  | External
  | ImplicitConstructor
deriving DecidableEq, Repr

/-- Embeds `enum Type` from the source (`Ty` because `Type` is reserved in Lean).
The closed type universe of §3.2. -/
inductive Ty where
  | Bool
  | String
  | I8
  | I16
  | I32
  | I64
  | U8
  | U16
  | U32
  | U64
  | F32
  | F64
  | Void
  | Vector (t : Ty)
  | Tuple (ts : List Ty)
  | Optional (t : Ty)
  | Struct (id : StructId)
  | RawPtr (t : Ty)
  | Unknown
  | CChar
  | CInt

instance : Inhabited Ty := ⟨Ty.Unknown⟩

mutual

/-- Structural equality on `Ty`, the derived `PartialEq` of the source
(nominal on `Struct` ids, elementwise on `Tuple`). -/
def ty_beq : Ty → Ty → Bool
  | .Bool, .Bool => true
  | .String, .String => true
  | .I8, .I8 => true
  | .I16, .I16 => true
  | .I32, .I32 => true
  | .I64, .I64 => true
  | .U8, .U8 => true
  | .U16, .U16 => true
  | .U32, .U32 => true
  | .U64, .U64 => true
  | .F32, .F32 => true
  | .F64, .F64 => true
  | .Void, .Void => true
  | .Vector a, .Vector b => ty_beq a b
  | .Tuple as_, .Tuple bs => ty_beq_list as_ bs
  | .Optional a, .Optional b => ty_beq a b
  | .Struct a, .Struct b => a == b
  | .RawPtr a, .RawPtr b => ty_beq a b
  | .Unknown, .Unknown => true
  | .CChar, .CChar => true
  | .CInt, .CInt => true
  | _, _ => false

/-- Elementwise equality of type lists (the `Vec<Type>` payload of `Tuple`). -/
def ty_beq_list : List Ty → List Ty → Bool
  | [], [] => true
  | a :: as_, b :: bs => ty_beq a b && ty_beq_list as_ bs
  | _, _ => false

end

/-- Embeds `Type::is_integer`. -/
def is_integer : Ty → Bool
  | .I8 | .I16 | .I32 | .I64 | .U8 | .U16 | .U32 | .U64 => true
  | _ => false

/-- Embeds `enum IntegerConstant { Signed(i64), Unsigned(u64) }`: the canonical form
of an untyped integer literal.  The payloads are the mathematical values of the
machine words; a well-formed constant satisfies `integer_constant_in_range`. -/
inductive IntegerConstant where
  | Signed (value : Int)
  | Unsigned (value : Nat)

/-- The machine-width side condition on `IntegerConstant` payloads: a `Signed`
payload is an `i64`, an `Unsigned` payload is a `u64`. -/
def integer_constant_in_range : IntegerConstant → Prop
  | .Signed v => -9223372036854775808 ≤ v ∧ v ≤ 9223372036854775807
  | .Unsigned v => v ≤ 18446744073709551615

instance : DecidablePred integer_constant_in_range := fun c => by
  cases c <;> simp only [integer_constant_in_range] <;> infer_instance

/-- Embeds `Type::can_fit_integer`: the range test driving integer-literal
promotion.  The `I64`-signed and `U64`-unsigned arms are `true` because the
payload is already of that width. -/
def can_fit_integer (ty : Ty) (value : IntegerConstant) : Bool :=
  match value with
  | .Signed value =>
    match ty with
    | .I8 => decide (-128 ≤ value ∧ value ≤ 127)
    | .I16 => decide (-32768 ≤ value ∧ value ≤ 32767)
    | .I32 => decide (-2147483648 ≤ value ∧ value ≤ 2147483647)
    | .I64 => true
    | .U8 => decide (0 ≤ value ∧ value ≤ 255)
    | .U16 => decide (0 ≤ value ∧ value ≤ 65535)
    | .U32 => decide (0 ≤ value ∧ value ≤ 4294967295)
    | .U64 => decide (0 ≤ value)
    | _ => false
  | .Unsigned value =>
    match ty with
    | .I8 => decide (value ≤ 127)
    | .I16 => decide (value ≤ 32767)
    | .I32 => decide (value ≤ 2147483647)
    | .I64 => decide (value ≤ 9223372036854775807)
    | .U8 => decide (value ≤ 255)
    | .U16 => decide (value ≤ 65535)
    | .U32 => decide (value ≤ 4294967295)
    | .U64 => true
    | _ => false

/-- Rust `as i8` on an integer value: two's-complement wrap into `[-128, 127]`. -/
def as_i8 (v : Int) : Int := (v + 128) % 256 - 128

/-- Rust `as i16`: two's-complement wrap into `[-32768, 32767]`. -/
def as_i16 (v : Int) : Int := (v + 32768) % 65536 - 32768

/-- Rust `as i32`: two's-complement wrap. -/
def as_i32 (v : Int) : Int := (v + 2147483648) % 4294967296 - 2147483648

/-- Rust `as i64`: two's-complement wrap. -/
def as_i64 (v : Int) : Int :=
  (v + 9223372036854775808) % 18446744073709551616 - 9223372036854775808

/-- Rust `as u8`: wrap into `[0, 255]`. -/
def as_u8 (v : Int) : Nat := (v % 256).toNat

/-- Rust `as u16`. -/
def as_u16 (v : Int) : Nat := (v % 65536).toNat

/-- Rust `as u32`. -/
def as_u32 (v : Int) : Nat := (v % 4294967296).toNat

/-- Rust `as u64`. -/
def as_u64 (v : Int) : Nat := (v % 18446744073709551616).toNat

/-- Embeds `enum NumericConstant`: a sized numeric constant.  Payloads are the
mathematical values of the machine words (signed variants carry an `Int` in the
variant's range, unsigned variants a `Nat`). -/
inductive NumericConstant where
  | I8 (value : Int)
  | I16 (value : Int)
  | I32 (value : Int)
  | I64 (value : Int)
  | U8 (value : Nat)
  | U16 (value : Nat)
  | U32 (value : Nat)
  | U64 (value : Nat)
deriving DecidableEq, Repr

/-- Embeds `IntegerConstant::promote`: narrow a literal to the target integer type.
Mirrors the source exactly: the range check first (miss gives
`(None, Unknown)`), then the per-width cast.  The outer `none` embeds the
`panic!("Bogus state in IntegerConstant::promote")` arms, reached only when the
range check passed for a non-integer type. -/
def IntegerConstant.promote (c : IntegerConstant) (ty : Ty) :
    Option (Option NumericConstant × Ty) :=
  if !(can_fit_integer ty c) then some (none, Ty.Unknown)
  else
    let new_constant : Option NumericConstant :=
      match c, ty with
      | .Signed value, .I8 => some (.I8 (as_i8 value))
      | .Signed value, .I16 => some (.I16 (as_i16 value))
      | .Signed value, .I32 => some (.I32 (as_i32 value))
      | .Signed value, .I64 => some (.I64 (as_i64 value))
      | .Signed value, .U8 => some (.U8 (as_u8 value))
      | .Signed value, .U16 => some (.U16 (as_u16 value))
      | .Signed value, .U32 => some (.U32 (as_u32 value))
      | .Signed value, .U64 => some (.U64 (as_u64 value))
      | .Unsigned value, .I8 => some (.I8 (as_i8 value))
      | .Unsigned value, .I16 => some (.I16 (as_i16 value))
      | .Unsigned value, .I32 => some (.I32 (as_i32 value))
      | .Unsigned value, .I64 => some (.I64 (as_i64 value))
      | .Unsigned value, .U8 => some (.U8 (as_u8 value))
      | .Unsigned value, .U16 => some (.U16 (as_u16 value))
      | .Unsigned value, .U32 => some (.U32 (as_u32 value))
      | .Unsigned value, .U64 => some (.U64 (as_u64 value))
      | _, _ => none
    match new_constant with
    | none => none
    | some nc => some (some nc, ty)

/-- Embeds `NumericConstant::integer_constant`: widen back to the canonical literal
form (the source's `as i64` / `as u64` casts are value-preserving there). -/
def NumericConstant.integer_constant : NumericConstant → Option IntegerConstant
  | .I8 value => some (.Signed value)
  | .I16 value => some (.Signed value)
  | .I32 value => some (.Signed value)
  | .I64 value => some (.Signed value)
  | .U8 value => some (.Unsigned value)
  | .U16 value => some (.Unsigned value)
  | .U32 value => some (.Unsigned value)
  | .U64 value => some (.Unsigned value)

/-- Embeds `NumericConstant::ty`: the width tag as a type. -/
def NumericConstant.ty : NumericConstant → Ty
  | .I8 _ => .I8
  | .I16 _ => .I16
  | .I32 _ => .I32
  | .I64 _ => .I64
  | .U8 _ => .U8
  | .U16 _ => .U16
  | .U32 _ => .U32
  | .U64 _ => .U64

/-- The mathematical integer denoted by an `IntegerConstant`. -/
def IntegerConstant.toInt : IntegerConstant → Int
  | .Signed v => v
  | .Unsigned v => (v : Int)

/-- The mathematical integer denoted by a `NumericConstant`. -/
def NumericConstant.toInt : NumericConstant → Int
  | .I8 v | .I16 v | .I32 v | .I64 v => v
  | .U8 v | .U16 v | .U32 v | .U64 v => (v : Int)

/-- Modelled from the spec (§6): a syntactic (unchecked) type expression as
produced by the parser. -/
inductive UncheckedType where
  | Name (name : String) (span : Span)
  | Vector (inner : UncheckedType) (span : Span)
  | Optional (inner : UncheckedType) (span : Span)
  | RawPtr (inner : UncheckedType) (span : Span)
  | Empty

/-- Modelled from the spec (§4.8.1): the parser's type-cast payload.  Only the
carried syntactic type is consulted by the checker, via `unchecked_type`. -/
inductive TypeCastKind where
  | Fallible (ty : UncheckedType)
  | Infallible (ty : UncheckedType)
  | Saturating (ty : UncheckedType)
  | Truncating (ty : UncheckedType)

/-- Embeds `TypeCast::unchecked_type()`. -/
def TypeCastKind.unchecked_type : TypeCastKind → UncheckedType
  | .Fallible t | .Infallible t | .Saturating t | .Truncating t => t

/-- Modelled from the spec (§4.8.1): the parser's unary operators. -/
inductive UnaryOperator where
  | PreIncrement
  | PostIncrement
  | PreDecrement
  | PostDecrement
  | Negate
  | Dereference
  | RawAddress
  | LogicalNot
  | BitwiseNot
  | TypeCast (cast : TypeCastKind)

/-- Modelled from the spec (§4.8.2): the parser's binary operators; the
checker special-cases the logical and assignment operators and leaves the rest
to the default rule. -/
inductive BinaryOperator where
  | Add
  | Subtract
  | Multiply
  | Divide
  | Modulo
  | Equal
  | NotEqual
  | LessThan
  | LessThanOrEqual
  | GreaterThan
  | GreaterThanOrEqual
  | LogicalAnd
  | LogicalOr
  | Assign
  | AddAssign
  | SubtractAssign
  | MultiplyAssign
  | DivideAssign
  | BitwiseAndAssign
  | BitwiseOrAssign
  | BitwiseXorAssign
  | BitwiseLeftShiftAssign
  | BitwiseRightShiftAssign
deriving DecidableEq, Repr

mutual

/-- Modelled from the spec (§3.8, §4.8): the parser's expression tree.  Every
variant carries its span; `Call` and `MethodCall` carry a `Call` payload. -/
inductive Expression where
  | Boolean (b : Bool) (span : Span)
  | NumericConstant (constant : NumericConstant) (span : Span)
  | QuotedString (s : String) (span : Span)
  | CharacterLiteral (c : Char) (span : Span)
  | BinaryOp (lhs : Expression) (op : BinaryOperator) (rhs : Expression) (span : Span)
  | UnaryOp (e : Expression) (op : UnaryOperator) (span : Span)
  | OptionalNone (span : Span)
  | OptionalSome (e : Expression) (span : Span)
  | ForcedUnwrap (e : Expression) (span : Span)
  | Call (call : Call) (span : Span)
  | MethodCall (e : Expression) (call : Call) (span : Span)
  | Var (name : String) (span : Span)
  | Vector (elements : List Expression) (fill_size : Option Expression) (span : Span)
  | Tuple (items : List Expression) (span : Span)
  | IndexedExpression (e : Expression) (idx : Expression) (span : Span)
  | IndexedTuple (e : Expression) (idx : Nat) (span : Span)
  | IndexedStruct (e : Expression) (name : String) (span : Span)
  | Operator (op : BinaryOperator) (span : Span)
  | Garbage (span : Span)

/-- Modelled from the spec (§4.10): an unchecked call site — optional
namespace path, callee name, and labelled argument expressions. -/
inductive Call where
  | mk (nspace : List String) (name : String) (args : List (String × Expression))

end

/-- Embeds `call.namespace` (renamed: `namespace` is reserved in Lean). -/
def Call.nspace : Call → List String
  | .mk ns _ _ => ns

/-- Embeds `call.name`. -/
def Call.name : Call → String
  | .mk _ n _ => n

/-- Embeds `call.args`. -/
def Call.args : Call → List (String × Expression)
  | .mk _ _ a => a

/-- Embeds `Expression::span()`: every parsed expression carries its span. -/
def Expression.span : Expression → Span
  | .Boolean _ span => span
  | .NumericConstant _ span => span
  | .QuotedString _ span => span
  | .CharacterLiteral _ span => span
  | .BinaryOp _ _ _ span => span
  | .UnaryOp _ _ span => span
  | .OptionalNone span => span
  | .OptionalSome _ span => span
  | .ForcedUnwrap _ span => span
  | .Call _ span => span
  | .MethodCall _ _ span => span
  | .Var _ span => span
  | .Vector _ _ span => span
  | .Tuple _ span => span
  | .IndexedExpression _ _ span => span
  | .IndexedTuple _ _ span => span
  | .IndexedStruct _ _ span => span
  | .Operator _ span => span
  | .Garbage span => span

/-- Modelled from the spec (§4.7): the parser's variable declaration —
name, declared (possibly empty) type, mutability, span. -/
structure VarDecl where
  name : String
  ty : UncheckedType
  mutable : Bool
  span : Span

mutual

/-- Modelled from the spec (§3.8, §4.7): the parser's statements. -/
inductive Statement where
  | Expression (e : Expression)
  | Defer (stmt : Statement)
  | UnsafeBlock (block : Block)
  | VarDecl (decl : VarDecl) (init : Expression)
  | If (cond : Expression) (then_block : Block) (else_stmt : Option Statement)
  | While (cond : Expression) (block : Block)
  | Return (e : Expression)
  | Block (block : Block)
  | Garbage

/-- Modelled from the spec: a parsed block is a statement list. -/
inductive Block where
  | mk (stmts : List Statement)

end

/-- Embeds `block.stmts`. -/
def Block.stmts : Block → List Statement
  | .mk s => s

/-- Modelled from the spec (§3.4): the parser's variable record inside a
parameter: name, unchecked type, mutability. -/
structure ParsedVariable where
  name : String
  ty : UncheckedType
  mutable : Bool

/-- Modelled from the spec (§3.4): a parsed parameter with label discipline
flag. -/
structure Parameter where
  requires_label : Bool
  «variable» : ParsedVariable

/-- Modelled from the spec (§3.6, §6): a parsed function declaration. -/
structure Function where
  name : String
  name_span : Span
  params : List Parameter
  block : Block
  return_type : UncheckedType
  linkage : FunctionLinkage

/-- Embeds `struct CheckedVariable { name, ty, mutable }` -/
structure CheckedVariable where
  name : String
  ty : Ty
  mutable : Bool

instance : Inhabited CheckedVariable := ⟨⟨"", Ty.Unknown, false⟩⟩

/-- Embeds `struct CheckedVarDecl { name, ty, mutable, span }` -/
structure CheckedVarDecl where
  name : String
  ty : Ty
  mutable : Bool
  span : Span

/-- Embeds `struct CheckedParameter { requires_label, variable }` -/
structure CheckedParameter where
  requires_label : Bool
  «variable» : CheckedVariable

instance : Inhabited CheckedParameter := ⟨⟨false, default⟩⟩

mutual

/-- Embeds `enum CheckedExpression`: the typed expression tree of the source. -/
inductive CheckedExpression where
  | Boolean (b : Bool)
  | NumericConstant (constant : NumericConstant) (ty : Ty)
  | QuotedString (s : String)
  | CharacterConstant (c : Char)
  | UnaryOp (e : CheckedExpression) (op : UnaryOperator) (ty : Ty)
  | BinaryOp (lhs : CheckedExpression) (op : BinaryOperator)
      (rhs : CheckedExpression) (ty : Ty)
  | Tuple (items : List CheckedExpression) (ty : Ty)
  | Vector (items : List CheckedExpression)
      (fill_size : Option CheckedExpression) (ty : Ty)
  | IndexedExpression (e : CheckedExpression) (idx : CheckedExpression) (ty : Ty)
  | IndexedTuple (e : CheckedExpression) (idx : Nat) (ty : Ty)
  | IndexedStruct (e : CheckedExpression) (name : String) (ty : Ty)
  | Call (call : CheckedCall) (ty : Ty)
  | MethodCall (e : CheckedExpression) (call : CheckedCall) (ty : Ty)
  | Var (v : CheckedVariable)
  | OptionalNone (ty : Ty)
  | OptionalSome (e : CheckedExpression) (ty : Ty)
  | ForcedUnwrap (e : CheckedExpression) (ty : Ty)
  | Garbage

/-- Embeds `struct CheckedCall { namespace, name, args, ty }` -/
inductive CheckedCall where
  | mk (nspace : List String) (name : String)
      (args : List (String × CheckedExpression)) (ty : Ty)

end

/-- Embeds `checked_call.namespace`. -/
def CheckedCall.nspace : CheckedCall → List String
  | .mk ns _ _ _ => ns

/-- Embeds `checked_call.name`. -/
def CheckedCall.name : CheckedCall → String
  | .mk _ n _ _ => n

/-- Embeds `checked_call.args`. -/
def CheckedCall.args : CheckedCall → List (String × CheckedExpression)
  | .mk _ _ a _ => a

/-- Embeds `checked_call.ty`. -/
def CheckedCall.ty : CheckedCall → Ty
  | .mk _ _ _ t => t

/-- Embeds `CheckedExpression::ty()`: the annotated type projection. -/
def CheckedExpression.ty : CheckedExpression → Ty
  | .Boolean _ => .Bool
  | .Call _ ty => ty
  | .NumericConstant _ ty => ty
  | .QuotedString _ => .String
  | .CharacterConstant _ => .CChar
  | .UnaryOp _ _ ty => ty
  | .BinaryOp _ _ _ ty => ty
  | .Vector _ _ ty => ty
  | .Tuple _ ty => ty
  | .IndexedExpression _ _ ty => ty
  | .IndexedTuple _ _ ty => ty
  | .IndexedStruct _ _ ty => ty
  | .MethodCall _ _ ty => ty
  | .Var v => v.ty
  | .OptionalNone ty => ty
  | .OptionalSome _ ty => ty
  | .ForcedUnwrap _ ty => ty
  | .Garbage => .Unknown

/-- Embeds `CheckedExpression::to_integer_constant()`. -/
def CheckedExpression.to_integer_constant : CheckedExpression → Option IntegerConstant
  | .NumericConstant constant _ => constant.integer_constant
  | _ => none

/-- Embeds `CheckedExpression::is_mutable()`: mutability recurses through struct and
vector indexing only. -/
def CheckedExpression.is_mutable : CheckedExpression → Bool
  | .Var var => var.mutable
  | .IndexedStruct e _ _ => e.is_mutable
  | .IndexedExpression e _ _ => e.is_mutable
  | _ => false

mutual

/-- Embeds `enum CheckedStatement`. -/
inductive CheckedStatement where
  | Expression (e : CheckedExpression)
  | Defer (stmt : CheckedStatement)
  | VarDecl (decl : CheckedVarDecl) (init : CheckedExpression)
  | If (cond : CheckedExpression) (block : CheckedBlock)
      (else_stmt : Option CheckedStatement)
  | Block (block : CheckedBlock)
  | While (cond : CheckedExpression) (block : CheckedBlock)
  | Return (e : CheckedExpression)
  | Garbage

/-- Embeds `struct CheckedBlock { stmts }` -/
inductive CheckedBlock where
  | mk (stmts : List CheckedStatement)

end

/-- Embeds `checked_block.stmts`. -/
def CheckedBlock.stmts : CheckedBlock → List CheckedStatement
  | .mk s => s

/-- Embeds `CheckedBlock::new()`. -/
def CheckedBlock.new : CheckedBlock := .mk []

/-- Embeds `struct CheckedFunction { name, return_type, params, block, linkage }` -/
structure CheckedFunction where
  name : String
  return_type : Ty
  params : List CheckedParameter
  block : CheckedBlock
  linkage : FunctionLinkage

instance : Inhabited CheckedFunction :=
  ⟨⟨"", Ty.Unknown, [], CheckedBlock.new, FunctionLinkage.Internal⟩⟩

/-- Embeds `CheckedFunction::is_static()`: true iff no parameter is named `this`. -/
def CheckedFunction.is_static (f : CheckedFunction) : Bool :=
  if f.params.any (fun param => param.«variable».name == "this") then false else true

/-- Embeds `struct CheckedStruct { name, fields, scope_id, definition_linkage, definition_type }` -/
structure CheckedStruct where
  name : String
  fields : List CheckedVarDecl
  scope_id : ScopeId
  definition_linkage : DefinitionLinkage
  definition_type : DefinitionType

instance : Inhabited CheckedStruct :=
  ⟨⟨"", [], 0, DefinitionLinkage.Internal, DefinitionType.Struct⟩⟩

/-- Embeds `struct Scope { vars, structs, funs, parent }` -/
structure Scope where
  vars : List CheckedVariable
  structs : List (String × StructId)
  funs : List (String × FunctionId)
  parent : Option ScopeId

instance : Inhabited Scope := ⟨⟨[], [], [], none⟩⟩

/-- Embeds `Scope::new(parent)`. -/
def Scope.new (parent : Option ScopeId) : Scope := ⟨[], [], [], parent⟩

/-- Embeds `struct Project { funs, structs, scopes }` -/
structure Project where
  funs : List CheckedFunction
  structs : List CheckedStruct
  scopes : List Scope

/-- Embeds `Project::new()`: one parentless top-level scope. -/
def Project.new : Project :=
  { funs := [], structs := [], scopes := [Scope.new none] }

/-- Embeds `Project::create_scope(parent_id)`: push a scope with the given parent and
return its id (the old length). -/
def Project.create_scope (p : Project) (parent_id : ScopeId) : Project × ScopeId :=
  ({ p with scopes := p.scopes ++ [Scope.new (some parent_id)] }, p.scopes.length)

/-- Embeds `Project::add_var_to_scope`: reject a same-name variable in the immediate
scope, else push.  `none` embeds the panic on an out-of-range scope id. -/
def Project.add_var_to_scope (p : Project) (scope_id : ScopeId)
    (var : CheckedVariable) (span : Span) : Option (Project × Option JaktError) :=
  if h : scope_id < p.scopes.length then
    let scope := p.scopes.get ⟨scope_id, h⟩
    if scope.vars.any (fun existing_var => var.name == existing_var.name) then
      some (p, some (.TypecheckError ("redefinition of " ++ var.name) span))
    else
      some ({ p with
        scopes := p.scopes.set scope_id { scope with vars := scope.vars ++ [var] } },
        none)
  else none

/-- Embeds `Project::add_struct_to_scope`: like `add_var_to_scope` for record names. -/
def Project.add_struct_to_scope (p : Project) (scope_id : ScopeId)
    (name : String) (struct_id : StructId) (span : Span) :
    Option (Project × Option JaktError) :=
  if h : scope_id < p.scopes.length then
    let scope := p.scopes.get ⟨scope_id, h⟩
    if scope.structs.any (fun existing_struct => name == existing_struct.1) then
      some (p, some (.TypecheckError ("redefinition of " ++ name) span))
    else
      some ({ p with
        scopes := p.scopes.set scope_id
          { scope with structs := scope.structs ++ [(name, struct_id)] } },
        none)
  else none

/-- Embeds `Project::add_function_to_scope`. -/
def Project.add_function_to_scope (p : Project) (scope_id : ScopeId)
    (name : String) (function_id : FunctionId) (span : Span) :
    Option (Project × Option JaktError) :=
  if h : scope_id < p.scopes.length then
    let scope := p.scopes.get ⟨scope_id, h⟩
    if scope.funs.any (fun existing_fun => name == existing_fun.1) then
      some (p, some (.TypecheckError ("redefinition of " ++ name) span))
    else
      some ({ p with
        scopes := p.scopes.set scope_id
          { scope with funs := scope.funs ++ [(name, function_id)] } },
        none)
  else none

/-- The `while let Some(current_id)` walk of `Project::find_var_in_scope`,
made total with fuel.  The outer `none` marks an abnormal run: fuel exhaustion
(the source would still be looping) or an out-of-range scope id (the source
would panic).  `some r` means the loop finished normally with result `r`. -/
def find_var_in_scope_fuel (p : Project) :
    Nat → Option ScopeId → String → Option (Option CheckedVariable)
  | _, none, _ => some none
  | 0, some _, _ => none
  | fuel + 1, some current_id, var =>
    if h : current_id < p.scopes.length then
      let scope := p.scopes.get ⟨current_id, h⟩
      match scope.vars.find? (fun v => v.name == var) with
      | some v => some (some v)
      | none => find_var_in_scope_fuel p fuel scope.parent var
    else none

/-- Embeds `Project::find_var_in_scope`: the fueled walk at default fuel
`scopes.len() + 1`, enough for every well-parented project (see
`c8_scope_walks_terminate`); an abnormal run collapses to `none`. -/
def Project.find_var_in_scope (p : Project) (scope_id : ScopeId) (var : String) :
    Option CheckedVariable :=
  (find_var_in_scope_fuel p (p.scopes.length + 1) (some scope_id) var).getD none

/-- The fueled walk of `Project::find_struct_in_scope` (see
`find_var_in_scope_fuel` for the fuel convention). -/
def find_struct_in_scope_fuel (p : Project) :
    Nat → Option ScopeId → String → Option (Option StructId)
  | _, none, _ => some none
  | 0, some _, _ => none
  | fuel + 1, some current_id, structure_name =>
    if h : current_id < p.scopes.length then
      let scope := p.scopes.get ⟨current_id, h⟩
      match scope.structs.find? (fun s => s.1 == structure_name) with
      | some s => some (some s.2)
      | none => find_struct_in_scope_fuel p fuel scope.parent structure_name
    else none

/-- Embeds `Project::find_struct_in_scope`. -/
def Project.find_struct_in_scope (p : Project) (scope_id : ScopeId)
    (structure_name : String) : Option StructId :=
  (find_struct_in_scope_fuel p (p.scopes.length + 1) (some scope_id) structure_name).getD none

/-- The fueled walk of `Project::find_function_in_scope`. -/
def find_function_in_scope_fuel (p : Project) :
    Nat → Option ScopeId → String → Option (Option FunctionId)
  | _, none, _ => some none
  | 0, some _, _ => none
  | fuel + 1, some current_id, fun_name =>
    if h : current_id < p.scopes.length then
      let scope := p.scopes.get ⟨current_id, h⟩
      match scope.funs.find? (fun s => s.1 == fun_name) with
      | some s => some (some s.2)
      | none => find_function_in_scope_fuel p fuel scope.parent fun_name
    else none

/-- Embeds `Project::find_function_in_scope`. -/
def Project.find_function_in_scope (p : Project) (scope_id : ScopeId)
    (fun_name : String) : Option FunctionId :=
  (find_function_in_scope_fuel p (p.scopes.length + 1) (some scope_id) fun_name).getD none

/-- Embeds `error.or(err)` on accumulated diagnostics: keep the first error. -/
def errOr (error err : Option JaktError) : Option JaktError :=
  match error with
  | some e => some e
  | none => err

/-- Embeds `typecheck_typename`: resolve a syntactic type expression in a scope. -/
def typecheck_typename (unchecked_type : UncheckedType) (scope_id : ScopeId)
    (project : Project) : Ty × Option JaktError :=
  match unchecked_type with
  | .Name name span =>
    match name with
    | "i8" => (.I8, none)
    | "i16" => (.I16, none)
    | "i32" => (.I32, none)
    | "i64" => (.I64, none)
    | "u8" => (.U8, none)
    | "u16" => (.U16, none)
    | "u32" => (.U32, none)
    | "u64" => (.U64, none)
    | "f32" => (.F32, none)
    | "f64" => (.F64, none)
    | "c_char" => (.CChar, none)
    | "c_int" => (.CInt, none)
    | "String" => (.String, none)
    | "bool" => (.Bool, none)
    | "void" => (.Void, none)
    | x =>
      match project.find_struct_in_scope scope_id x with
      | some struct_id => (.Struct struct_id, none)
      | none => (.Unknown, some (.TypecheckError "unknown type" span))
  | .Empty => (.Unknown, none)
  | .Vector inner _ =>
    let (inner_ty, err) := typecheck_typename inner scope_id project
    (.Vector inner_ty, err)
  | .Optional inner _ =>
    let (inner_ty, err) := typecheck_typename inner scope_id project
    (.Optional inner_ty, err)
  | .RawPtr inner _ =>
    let (inner_ty, err) := typecheck_typename inner scope_id project
    (.RawPtr inner_ty, err)

/-- Embeds `try_promote_constant_expr_to_type`: rewrite an integer-literal expression
in place when the target is an integer type.  `none` propagates the
(unreachable) promotion panic. -/
def try_promote_constant_expr_to_type (lhs_type : Ty)
    (checked_rhs : CheckedExpression) (span : Span) :
    Option (CheckedExpression × Option JaktError) :=
  if !(is_integer lhs_type) then some (checked_rhs, none)
  else
    match checked_rhs.to_integer_constant with
    | some rhs_constant =>
      match rhs_constant.promote lhs_type with
      | none => none
      | some (some new_constant, new_ty) =>
        some (.NumericConstant new_constant new_ty, none)
      | some (none, _) =>
        some (checked_rhs, some (.TypecheckError "Integer promotion failed" span))
    | none => some (checked_rhs, none)

/-- Embeds `typecheck_unary_operation`: operand shape and safety checks; the checked
node is produced on every path. -/
def typecheck_unary_operation (expr : CheckedExpression) (op : UnaryOperator)
    (span : Span) (scope_id : ScopeId) (project : Project)
    (safety_mode : SafetyMode) : CheckedExpression × Option JaktError :=
  let expr_ty := expr.ty
  match op with
  | .TypeCast cast =>
    let unchecked_type := cast.unchecked_type
    let (ty, err) := typecheck_typename unchecked_type scope_id project
    (.UnaryOp expr op ty, err)
  | .Dereference =>
    match expr.ty with
    | .RawPtr x =>
      if safety_mode = SafetyMode.Unsafe then
        (.UnaryOp expr op x, none)
      else
        (.UnaryOp expr op x,
          some (.TypecheckError
            "dereference of raw pointer outside of unsafe block" span))
    | _ =>
      (.UnaryOp expr op .Unknown,
        some (.TypecheckError "dereference of a non-pointer value" span))
  | .RawAddress =>
    let ty := expr.ty
    (.UnaryOp expr op (.RawPtr ty), none)
  | .LogicalNot =>
    let ty := expr.ty
    (.UnaryOp expr .LogicalNot ty, none)
  | .BitwiseNot =>
    let ty := expr.ty
    (.UnaryOp expr .BitwiseNot ty, none)
  | .Negate =>
    let ty := expr.ty
    match ty with
    | .I8 | .I16 | .I32 | .I64 | .U8 | .U16 | .U32 | .U64 | .F32 | .F64 =>
      (.UnaryOp expr .Negate ty, none)
    | _ =>
      (.UnaryOp expr .Negate ty,
        some (.TypecheckError "negate on non-numeric value" span))
  | .PostDecrement | .PostIncrement | .PreDecrement | .PreIncrement =>
    match expr.ty with
    | .I8 | .I16 | .I32 | .I64 | .U8 | .U16 | .U32 | .U64 | .F32 | .F64 =>
      if !expr.is_mutable then
        (.UnaryOp expr op expr_ty,
          some (.TypecheckError "increment/decrement of immutable variable" span))
      else
        (.UnaryOp expr op expr_ty, none)
    | _ =>
      (.UnaryOp expr op expr_ty,
        some (.TypecheckError "unary operation on non-numeric value" span))

/-- Embeds `typecheck_binary_operation`: result type defaults to the LHS type;
logical operators give `Bool`; assignment operators require equal types and a
mutable LHS.  (The source interpolates the two incompatible types into the
first message with `{:?}`; the embedding keeps a fixed message, which no claim
consults.) -/
def typecheck_binary_operation (lhs : CheckedExpression) (op : BinaryOperator)
    (rhs : CheckedExpression) (span : Span) : Ty × Option JaktError :=
  let ty := lhs.ty
  match op with
  | .LogicalAnd | .LogicalOr => (.Bool, none)
  | .Assign | .AddAssign | .SubtractAssign | .MultiplyAssign | .DivideAssign
  | .BitwiseAndAssign | .BitwiseOrAssign | .BitwiseXorAssign
  | .BitwiseLeftShiftAssign | .BitwiseRightShiftAssign =>
    let lhs_ty := lhs.ty
    let rhs_ty := rhs.ty
    if !(ty_beq lhs_ty rhs_ty) then
      (lhs.ty,
        some (.TypecheckError "assignment between incompatible types" span))
    else if !lhs.is_mutable then
      (lhs_ty, some (.TypecheckError "assignment to immutable variable" span))
    else
      (ty, none)
  | _ => (ty, none)

/-- Embeds `resolve_call`: bind a call site to a checked function, through the
namespace (record) scope when one is given.  Note the source quirk kept here:
a found namespace whose scope lacks the function yields neither a callee nor
an error. -/
def resolve_call (call : Call) (span : Span) (scope_id : ScopeId)
    (project : Project) : Option CheckedFunction × Option JaktError :=
  match call.nspace.head? with
  | some nspace =>
    match project.find_struct_in_scope scope_id nspace with
    | some struct_id =>
      let structure_ := project.structs.getD struct_id default
      match project.find_function_in_scope structure_.scope_id call.name with
      | some function_id => (some (project.funs.getD function_id default), none)
      | none => (none, none)
    | none =>
      (none, some (.TypecheckError ("unknown namespace or class: " ++ nspace) span))
  | none =>
    match project.find_function_in_scope scope_id call.name with
    | some function_id => (some (project.funs.getD function_id default), none)
    | none =>
      (none, some (.TypecheckError ("call to unknown function: " ++ call.name) span))

mutual

/-- Embeds `typecheck_expression`: recursively type an expression.  State-passing
embedding of the `&Project` functions; the returned project is proved
unchanged in `c9_expression_checking_is_pure`.  Fuel: one unit per step,
exhaustion is `none`. -/
def typecheck_expression :
    Nat → Expression → ScopeId → Project → SafetyMode →
    Option (Project × CheckedExpression × Option JaktError)
  | 0, _, _, _, _ => none
  | fuel + 1, expr, scope_id, project, safety_mode =>
    match expr with
    | .BinaryOp lhs op rhs span =>
      match typecheck_expression fuel lhs scope_id project safety_mode with
      | none => none
      | some (p1, checked_lhs, err1) =>
        match typecheck_expression fuel rhs scope_id p1 safety_mode with
        | none => none
        | some (p2, checked_rhs0, err2) =>
          match try_promote_constant_expr_to_type checked_lhs.ty checked_rhs0 span with
          | none => none
          | some (checked_rhs, err3) =>
            let (ty, err4) := typecheck_binary_operation checked_lhs op checked_rhs span
            some (p2, .BinaryOp checked_lhs op checked_rhs ty,
              errOr (errOr (errOr err1 err2) err3) err4)
    | .UnaryOp e op span =>
      match typecheck_expression fuel e scope_id project safety_mode with
      | none => none
      | some (p1, checked_expr, err1) =>
        let (checked_expr2, err2) :=
          typecheck_unary_operation checked_expr op span scope_id p1 safety_mode
        some (p1, checked_expr2, errOr err1 err2)
    | .OptionalNone _ => some (project, .OptionalNone .Unknown, none)
    | .OptionalSome e _ =>
      match typecheck_expression fuel e scope_id project safety_mode with
      | none => none
      | some (p1, checked_expr, err) =>
        let ty := checked_expr.ty
        some (p1, .OptionalSome checked_expr ty, err)
    | .ForcedUnwrap e _ =>
      match typecheck_expression fuel e scope_id project safety_mode with
      | none => none
      | some (p1, checked_expr, err) =>
        match checked_expr.ty with
        | .Optional inner_type =>
          some (p1, .ForcedUnwrap checked_expr inner_type, err)
        | _ =>
          some (p1, .ForcedUnwrap checked_expr .Unknown,
            errOr err (some (.TypecheckError
              "Forced unwrap only works on Optional" e.span)))
    | .Boolean b _ => some (project, .Boolean b, none)
    | .Call call span =>
      match typecheck_call fuel call scope_id span project safety_mode with
      | none => none
      | some (p1, checked_call, err) =>
        some (p1, .Call checked_call checked_call.ty, err)
    | .NumericConstant constant _ =>
      some (project, .NumericConstant constant constant.ty, none)
    | .QuotedString qs _ => some (project, .QuotedString qs, none)
    | .CharacterLiteral c _ => some (project, .CharacterConstant c, none)
    | .Var v span =>
      match project.find_var_in_scope scope_id v with
      | some var => some (project, .Var var, none)
      | none =>
        some (project, .Var ⟨v, .Unknown, false⟩,
          some (.TypecheckError "variable not found" span))
    | .Vector vec fill_size _ =>
      match fill_size with
      | some fill_size_expr =>
        match typecheck_expression fuel fill_size_expr scope_id project safety_mode with
        | none => none
        | some (p1, checked_fill, err0) =>
          match typecheck_vector_elements fuel vec scope_id p1 safety_mode
              .Unknown [] err0 with
          | none => none
          | some (p2, output, inner_ty, error) =>
            some (p2, .Vector output (some checked_fill) (.Vector inner_ty), error)
      | none =>
        match typecheck_vector_elements fuel vec scope_id project safety_mode
            .Unknown [] none with
        | none => none
        | some (p2, output, inner_ty, error) =>
          some (p2, .Vector output none (.Vector inner_ty), error)
    | .Tuple items _ =>
      match typecheck_tuple_items fuel items scope_id project safety_mode [] [] none with
      | none => none
      | some (p1, checked_items, checked_types, error) =>
        some (p1, .Tuple checked_items (.Tuple checked_types), error)
    | .IndexedExpression e idx _ =>
      match typecheck_expression fuel e scope_id project safety_mode with
      | none => none
      | some (p1, checked_expr, err1) =>
        match typecheck_expression fuel idx scope_id p1 safety_mode with
        | none => none
        | some (p2, checked_idx, err2) =>
          let error0 := errOr err1 err2
          let (ty, error) :=
            match checked_expr.ty with
            | .Vector inner_ty =>
              if is_integer checked_idx.ty then (inner_ty, error0)
              else
                (.Unknown, errOr error0
                  (some (.TypecheckError "index is not an integer" idx.span)))
            | _ =>
              (.Unknown, errOr error0
                (some (.TypecheckError
                  "index used on value that can't be indexed" e.span)))
          some (p2, .IndexedExpression checked_expr checked_idx ty, error)
    | .IndexedTuple e idx span =>
      match typecheck_expression fuel e scope_id project safety_mode with
      | none => none
      | some (p1, checked_expr, err1) =>
        let (ty, error) :=
          match checked_expr.ty with
          | .Tuple inner_ty =>
            match inner_ty[idx]? with
            | some t => (t, err1)
            | none =>
              (.Unknown, errOr err1
                (some (.TypecheckError "tuple index past the end of the tuple" span)))
          | _ =>
            (.Unknown, errOr err1
              (some (.TypecheckError "tuple index used non-tuple value" e.span)))
        some (p1, .IndexedTuple checked_expr idx ty, error)
    | .IndexedStruct e name span =>
      match typecheck_expression fuel e scope_id project safety_mode with
      | none => none
      | some (p1, checked_expr, err1) =>
        match checked_expr.ty with
        | .Struct struct_id =>
          let structure_ := p1.structs.getD struct_id default
          match structure_.fields.find? (fun member => member.name == name) with
          | some member =>
            some (p1, .IndexedStruct checked_expr name member.ty, none)
          | none =>
            some (p1, .IndexedStruct checked_expr name .Unknown,
              errOr err1 (some (.TypecheckError
                ("unknown member of struct: " ++ structure_.name ++ "." ++ name)
                span)))
        | _ =>
          some (p1, .IndexedStruct checked_expr name .Unknown,
            errOr err1 (some (.TypecheckError
              "member access of non-struct value" span)))
    | .MethodCall e call span =>
      match typecheck_expression fuel e scope_id project safety_mode with
      | none => none
      | some (p1, checked_expr, err1) =>
        match checked_expr.ty with
        | .Struct struct_id =>
          match typecheck_method_call fuel call scope_id span p1 struct_id
              safety_mode with
          | none => none
          | some (p2, checked_call, err2) =>
            some (p2, .MethodCall checked_expr checked_call checked_call.ty,
              errOr err1 err2)
        | .String =>
          match p1.find_struct_in_scope 0 "String" with
          | some struct_id =>
            match typecheck_method_call fuel call 0 span p1 struct_id
                safety_mode with
            | none => none
            | some (p2, checked_call, err2) =>
              some (p2, .MethodCall checked_expr checked_call checked_call.ty,
                errOr err1 err2)
          | none =>
            some (p1, .Garbage,
              errOr err1 (some (.TypecheckError
                "no methods available on value" e.span)))
        | .Vector _ =>
          match p1.find_struct_in_scope 0 "RefVector" with
          | some struct_id =>
            match typecheck_method_call fuel call 0 span p1 struct_id
                safety_mode with
            | none => none
            | some (p2, checked_call, err2) =>
              some (p2, .MethodCall checked_expr checked_call checked_call.ty,
                errOr err1 err2)
          | none =>
            some (p1, .Garbage,
              errOr err1 (some (.TypecheckError
                "no methods available on value" e.span)))
        | _ =>
          some (p1, .Garbage,
            errOr err1 (some (.TypecheckError
              "no methods available on value" e.span)))
    | .Operator _ span =>
      some (project, .Garbage,
        some (.TypecheckError "garbage in expression" span))
    | .Garbage span =>
      some (project, .Garbage,
        some (.TypecheckError "garbage in expression" span))
termination_by structural fuel _ _ _ _ => fuel

/-- The element loop of the `Expression::Vector` arm: infer the inner type
from the first element and flag later mismatches. -/
def typecheck_vector_elements :
    Nat → List Expression → ScopeId → Project → SafetyMode → Ty →
    List CheckedExpression → Option JaktError →
    Option (Project × List CheckedExpression × Ty × Option JaktError)
  | 0, _, _, _, _, _, _, _ => none
  | fuel + 1, elems, scope_id, project, safety_mode, inner_ty, output, error =>
    match elems with
    | [] => some (project, output, inner_ty, error)
    | v :: rest =>
      match typecheck_expression fuel v scope_id project safety_mode with
      | none => none
      | some (p1, checked_expr, err1) =>
        let error1 := errOr error err1
        if ty_beq inner_ty .Unknown then
          typecheck_vector_elements fuel rest scope_id p1 safety_mode
            checked_expr.ty (output ++ [checked_expr]) error1
        else if !(ty_beq inner_ty checked_expr.ty) then
          typecheck_vector_elements fuel rest scope_id p1 safety_mode
            inner_ty (output ++ [checked_expr])
            (errOr error1 (some (.TypecheckError
              "does not match type of previous values in vector" v.span)))
        else
          typecheck_vector_elements fuel rest scope_id p1 safety_mode
            inner_ty (output ++ [checked_expr]) error1
termination_by structural fuel _ _ _ _ _ _ _ => fuel

/-- The item loop of the `Expression::Tuple` arm. -/
def typecheck_tuple_items :
    Nat → List Expression → ScopeId → Project → SafetyMode →
    List CheckedExpression → List Ty → Option JaktError →
    Option (Project × List CheckedExpression × List Ty × Option JaktError)
  | 0, _, _, _, _, _, _, _ => none
  | fuel + 1, items, scope_id, project, safety_mode, checked_items,
      checked_types, error =>
    match items with
    | [] => some (project, checked_items, checked_types, error)
    | item :: rest =>
      match typecheck_expression fuel item scope_id project safety_mode with
      | none => none
      | some (p1, checked_item, err1) =>
        typecheck_tuple_items fuel rest scope_id p1 safety_mode
          (checked_items ++ [checked_item]) (checked_types ++ [checked_item.ty])
          (errOr error err1)
termination_by structural fuel _ _ _ _ _ _ _ => fuel

/-- Embeds `typecheck_call`: the `println`/`eprintln` sink takes any arguments and
performs no arity or label check; other calls resolve a callee, check arity,
then run the argument loop. -/
def typecheck_call :
    Nat → Call → ScopeId → Span → Project → SafetyMode →
    Option (Project × CheckedCall × Option JaktError)
  | 0, _, _, _, _, _ => none
  | fuel + 1, call, scope_id, span, project, safety_mode =>
    if call.name == "println" || call.name == "eprintln" then
      match typecheck_println_args fuel call.args scope_id project safety_mode
          [] .Unknown none with
      | none => none
      | some (p1, checked_args, return_ty, error) =>
        some (p1, .mk call.nspace call.name checked_args return_ty, error)
    else
      let (callee, err0) := resolve_call call span scope_id project
      match callee with
      | none =>
        some (project, .mk call.nspace call.name [] .Unknown, err0)
      | some callee =>
        let return_ty := callee.return_type
        if !(callee.params.length == call.args.length) then
          some (project, .mk call.nspace call.name [] return_ty,
            errOr err0 (some (.TypecheckError "wrong number of arguments" span)))
        else
          match typecheck_call_args fuel callee call.args 0 scope_id project
              safety_mode [] err0 with
          | none => none
          | some (p1, checked_args, error) =>
            some (p1, .mk call.nspace call.name checked_args return_ty, error)
termination_by structural fuel _ _ _ _ _ => fuel

/-- The argument loop of the `println`/`eprintln` sink: each argument is
checked, `return_ty` is set to `Void` once per iteration (so it stays
`Unknown` for an empty argument list, see `c3_counterexample`). -/
def typecheck_println_args :
    Nat → List (String × Expression) → ScopeId → Project → SafetyMode →
    List (String × CheckedExpression) → Ty → Option JaktError →
    Option (Project × List (String × CheckedExpression) × Ty × Option JaktError)
  | 0, _, _, _, _, _, _, _ => none
  | fuel + 1, args, scope_id, project, safety_mode, checked_args, return_ty,
      error =>
    match args with
    | [] => some (project, checked_args, return_ty, error)
    | arg :: rest =>
      match typecheck_expression fuel arg.2 scope_id project safety_mode with
      | none => none
      | some (p1, checked_arg, err1) =>
        typecheck_println_args fuel rest scope_id p1 safety_mode
          (checked_args ++ [(arg.1, checked_arg)]) .Void (errOr error err1)
termination_by structural fuel _ _ _ _ _ _ _ => fuel

/-- The `while idx < call.args.len()` argument loop of `typecheck_call`:
label discipline (with the bare-variable concession), promotion toward the
parameter type, and the type comparison, all against parameter `idx`. -/
def typecheck_call_args :
    Nat → CheckedFunction → List (String × Expression) → Nat → ScopeId →
    Project → SafetyMode → List (String × CheckedExpression) →
    Option JaktError →
    Option (Project × List (String × CheckedExpression) × Option JaktError)
  | 0, _, _, _, _, _, _, _, _ => none
  | fuel + 1, callee, args, idx, scope_id, project, safety_mode, checked_args,
      error =>
    if h : idx < args.length then
      let arg := args.get ⟨idx, h⟩
      match typecheck_expression fuel arg.2 scope_id project safety_mode with
      | none => none
      | some (p1, checked_arg0, err1) =>
        let error1 := errOr error err1
        let param := callee.params.getD idx default
        let error2 :=
          match arg.2 with
          | .Var var_name _ =>
            if var_name != param.«variable».name
                && param.requires_label
                && arg.1 != param.«variable».name then
              errOr error1 (some (.TypecheckError
                "Wrong parameter name in argument label" arg.2.span))
            else error1
          | _ =>
            if param.requires_label && arg.1 != param.«variable».name then
              errOr error1 (some (.TypecheckError
                "Wrong parameter name in argument label" arg.2.span))
            else error1
        match try_promote_constant_expr_to_type param.«variable».ty checked_arg0
            arg.2.span with
        | none => none
        | some (checked_arg, err3) =>
          let error3 := errOr error2 err3
          let error4 :=
            if !(ty_beq checked_arg.ty param.«variable».ty) then
              errOr error3 (some (.TypecheckError "Parameter type mismatch"
                arg.2.span))
            else error3
          typecheck_call_args fuel callee args (idx + 1) scope_id p1 safety_mode
            (checked_args ++ [(arg.1, checked_arg)]) error4
    else some (project, checked_args, error)
termination_by structural fuel _ _ _ _ _ _ _ _ => fuel

/-- Embeds `typecheck_method_call`: resolve within the receiver record's scope;
arity counts the hidden `this` at parameter index 0. -/
def typecheck_method_call :
    Nat → Call → ScopeId → Span → Project → StructId → SafetyMode →
    Option (Project × CheckedCall × Option JaktError)
  | 0, _, _, _, _, _, _ => none
  | fuel + 1, call, scope_id, span, file, struct_id, safety_mode =>
    let (callee, err0) :=
      resolve_call call span (file.structs.getD struct_id default).scope_id file
    match callee with
    | none => some (file, .mk [] call.name [] .Unknown, err0)
    | some callee =>
      let return_ty := callee.return_type
      if !(callee.params.length == call.args.length + 1) then
        some (file, .mk [] call.name [] return_ty,
          errOr err0 (some (.TypecheckError "wrong number of arguments" span)))
      else
        match typecheck_method_call_args fuel callee call.args 0 scope_id file
            safety_mode [] err0 with
        | none => none
        | some (p1, checked_args, error) =>
          some (p1, .mk [] call.name checked_args return_ty, error)
termination_by structural fuel _ _ _ _ _ _ => fuel

/-- The argument loop of `typecheck_method_call`.  Call position `idx` matches
parameter position `idx + 1`; the non-variable branch reads
`callee.params[idx].requires_label` (index `idx`, not `idx + 1`) exactly as the
source does — see `c2_method_label_check_off_by_one`. -/
def typecheck_method_call_args :
    Nat → CheckedFunction → List (String × Expression) → Nat → ScopeId →
    Project → SafetyMode → List (String × CheckedExpression) →
    Option JaktError →
    Option (Project × List (String × CheckedExpression) × Option JaktError)
  | 0, _, _, _, _, _, _, _, _ => none
  | fuel + 1, callee, args, idx, scope_id, file, safety_mode, checked_args,
      error =>
    if h : idx < args.length then
      let arg := args.get ⟨idx, h⟩
      match typecheck_expression fuel arg.2 scope_id file safety_mode with
      | none => none
      | some (p1, checked_arg0, err1) =>
        let error1 := errOr error err1
        let param_this := callee.params.getD idx default
        let param := callee.params.getD (idx + 1) default
        let error2 :=
          match arg.2 with
          | .Var var_name _ =>
            if var_name != param.«variable».name
                && param.requires_label
                && arg.1 != param.«variable».name then
              errOr error1 (some (.TypecheckError
                "Wrong parameter name in argument label" arg.2.span))
            else error1
          | _ =>
            if param_this.requires_label && arg.1 != param.«variable».name then
              errOr error1 (some (.TypecheckError
                "Wrong parameter name in argument label" arg.2.span))
            else error1
        match try_promote_constant_expr_to_type param.«variable».ty checked_arg0
            arg.2.span with
        | none => none
        | some (checked_arg, err3) =>
          let error3 := errOr error2 err3
          let error4 :=
            if !(ty_beq checked_arg.ty param.«variable».ty) then
              errOr error3 (some (.TypecheckError "Parameter type mismatch"
                arg.2.span))
            else error3
          typecheck_method_call_args fuel callee args (idx + 1) scope_id p1
            safety_mode (checked_args ++ [(arg.1, checked_arg)]) error4
    else some (file, checked_args, error)
termination_by structural fuel _ _ _ _ _ _ _ _ => fuel

end

mutual

/-- Embeds `typecheck_statement`: statements may bind variables in the current scope
(`VarDecl`) and switch to `Unsafe` mode (`UnsafeBlock`). -/
def typecheck_statement :
    Nat → Statement → ScopeId → Project → SafetyMode →
    Option (Project × CheckedStatement × Option JaktError)
  | 0, _, _, _, _ => none
  | fuel + 1, stmt, scope_id, project, safety_mode =>
    match stmt with
    | .Expression expr =>
      match typecheck_expression fuel expr scope_id project safety_mode with
      | none => none
      | some (p1, checked_expr, err) =>
        some (p1, .Expression checked_expr, err)
    | .Defer statement =>
      match typecheck_statement fuel statement scope_id project safety_mode with
      | none => none
      | some (p1, checked_statement, err) =>
        some (p1, .Defer checked_statement, err)
    | .UnsafeBlock block =>
      match typecheck_block fuel block scope_id project SafetyMode.Unsafe with
      | none => none
      | some (p1, checked_block, err) =>
        some (p1, .Block checked_block, err)
    | .VarDecl var_decl init =>
      match typecheck_expression fuel init scope_id project safety_mode with
      | none => none
      | some (p1, checked_expression0, err1) =>
        let error0 := errOr none err1
        let (checked_type0, err2) := typecheck_typename var_decl.ty scope_id p1
        let (checked_type, error1) :=
          if ty_beq checked_type0 .Unknown
              && !(ty_beq checked_expression0.ty .Unknown) then
            (checked_expression0.ty, error0)
          else
            (checked_type0, errOr error0 err2)
        match try_promote_constant_expr_to_type checked_type checked_expression0
            init.span with
        | none => none
        | some (checked_expression, err3) =>
          let error2 := errOr error1 err3
          let checked_var_decl : CheckedVarDecl :=
            ⟨var_decl.name, checked_type, var_decl.mutable, var_decl.span⟩
          match p1.add_var_to_scope scope_id
              ⟨checked_var_decl.name, checked_var_decl.ty, checked_var_decl.mutable⟩
              checked_var_decl.span with
          | none => none
          | some (p2, err4) =>
            some (p2, .VarDecl checked_var_decl checked_expression,
              errOr error2 err4)
    | .If cond block else_stmt =>
      match typecheck_expression fuel cond scope_id project safety_mode with
      | none => none
      | some (p1, checked_cond, err1) =>
        match typecheck_block fuel block scope_id p1 safety_mode with
        | none => none
        | some (p2, checked_block, err2) =>
          match else_stmt with
          | some else_statement =>
            match typecheck_statement fuel else_statement scope_id p2
                safety_mode with
            | none => none
            | some (p3, checked_stmt, err3) =>
              some (p3, .If checked_cond checked_block (some checked_stmt),
                errOr (errOr err1 err2) err3)
          | none =>
            some (p2, .If checked_cond checked_block none, errOr err1 err2)
    | .While cond block =>
      match typecheck_expression fuel cond scope_id project safety_mode with
      | none => none
      | some (p1, checked_cond, err1) =>
        match typecheck_block fuel block scope_id p1 safety_mode with
        | none => none
        | some (p2, checked_block, err2) =>
          some (p2, .While checked_cond checked_block, errOr err1 err2)
    | .Return expr =>
      match typecheck_expression fuel expr scope_id project safety_mode with
      | none => none
      | some (p1, output, err) => some (p1, .Return output, err)
    | .Block block =>
      match typecheck_block fuel block scope_id project safety_mode with
      | none => none
      | some (p1, checked_block, err) => some (p1, .Block checked_block, err)
    | .Garbage => some (project, .Garbage, none)
termination_by structural fuel _ _ _ _ => fuel

/-- Embeds `typecheck_block`: create the block's own scope, then check the statements
in order. -/
def typecheck_block :
    Nat → Block → ScopeId → Project → SafetyMode →
    Option (Project × CheckedBlock × Option JaktError)
  | 0, _, _, _, _ => none
  | fuel + 1, block, parent_scope_id, project, safety_mode =>
    let (p1, block_scope_id) := project.create_scope parent_scope_id
    match typecheck_block_statements fuel block.stmts block_scope_id p1
        safety_mode [] none with
    | none => none
    | some (p2, stmts, error) => some (p2, .mk stmts, error)
termination_by structural fuel _ _ _ _ => fuel

/-- The statement loop of `typecheck_block`. -/
def typecheck_block_statements :
    Nat → List Statement → ScopeId → Project → SafetyMode →
    List CheckedStatement → Option JaktError →
    Option (Project × List CheckedStatement × Option JaktError)
  | 0, _, _, _, _, _, _ => none
  | fuel + 1, stmts, scope_id, project, safety_mode, acc, error =>
    match stmts with
    | [] => some (project, acc, error)
    | stmt :: rest =>
      match typecheck_statement fuel stmt scope_id project safety_mode with
      | none => none
      | some (p1, checked_stmt, err) =>
        typecheck_block_statements fuel rest scope_id p1 safety_mode
          (acc ++ [checked_stmt]) (errOr error err)
termination_by structural fuel _ _ _ _ _ _ => fuel

end

/-- The parameter-binding loop shared by `typecheck_fun` and
`typecheck_method`: add each parameter variable to the function scope,
accumulating the first redefinition error. -/
def add_param_vars (p : Project) (scope_id : ScopeId)
    (vars : List CheckedVariable) (span : Span) (error : Option JaktError) :
    Option (Project × Option JaktError) :=
  match vars with
  | [] => some (p, error)
  | v :: rest =>
    match p.add_var_to_scope scope_id v span with
    | none => none
    | some (p1, err) => add_param_vars p1 scope_id rest span (errOr error err)

/-- The opening steps of `typecheck_fun`: create the function scope, look the
predeclared function up in the parent scope (the source `expect`s success —
`none` embeds that panic), and bind its parameters.  Returns the prepared
project, the function scope, the function id and the accumulated error. -/
def funScopeSetup (fun_ : Function) (parent_scope_id : ScopeId) (p : Project) :
    Option (Project × ScopeId × FunctionId × Option JaktError) :=
  let (p1, function_scope_id) := p.create_scope parent_scope_id
  match p1.find_function_in_scope parent_scope_id fun_.name with
  | none => none
  | some function_id =>
    let checked_function := p1.funs.getD function_id default
    let param_vars := checked_function.params.map (fun param => param.«variable»)
    match add_param_vars p1 function_scope_id param_vars fun_.name_span none with
    | none => none
    | some (p2, error) => some (p2, function_scope_id, function_id, error)

/-- Embeds `typecheck_fun`: check the body block in `Safe` mode, resolve the declared
return type against the parent scope, infer the return type from a leading
`Return` when the declared type resolved to `Unknown`, and store block and
return type back into the function table. -/
def typecheck_fun (fuel : Nat) (fun_ : Function) (parent_scope_id : ScopeId)
    (p : Project) : Option (Project × Option JaktError) :=
  match funScopeSetup fun_ parent_scope_id p with
  | none => none
  | some (p2, function_scope_id, function_id, err0) =>
    match typecheck_block fuel fun_.block function_scope_id p2 SafetyMode.Safe with
    | none => none
    | some (p3, block, err1) =>
      let (fun_return_type, err2) :=
        typecheck_typename fun_.return_type parent_scope_id p3
      let return_type :=
        if ty_beq fun_return_type .Unknown then
          match block.stmts with
          | CheckedStatement.Return ret :: _ => ret.ty
          | _ => Ty.Void
        else fun_return_type
      let checked_function := p3.funs.getD function_id default
      let p4 := { p3 with
        funs := p3.funs.set function_id
          { checked_function with block := block, return_type := return_type } }
      some (p4, errOr (errOr err0 err1) err2)

/-- The opening steps of `typecheck_method`: like `funScopeSetup`, but the
method is looked up in the record's inner scope. -/
def methodScopeSetup (fun_ : Function) (parent_scope_id : ScopeId) (p : Project)
    (struct_id : StructId) :
    Option (Project × ScopeId × FunctionId × Option JaktError) :=
  let (p1, function_scope_id) := p.create_scope parent_scope_id
  let structure_ := p1.structs.getD struct_id default
  let structure_scope_id := structure_.scope_id
  match p1.find_function_in_scope structure_scope_id fun_.name with
  | none => none
  | some method_id =>
    let checked_function := p1.funs.getD method_id default
    let param_vars := checked_function.params.map (fun param => param.«variable»)
    match add_param_vars p1 function_scope_id param_vars fun_.name_span none with
    | none => none
    | some (p2, error) => some (p2, function_scope_id, method_id, error)

/-- Embeds `typecheck_method`: identical to `typecheck_fun` after the lookup through
the record's inner scope. -/
def typecheck_method (fuel : Nat) (fun_ : Function) (parent_scope_id : ScopeId)
    (p : Project) (struct_id : StructId) : Option (Project × Option JaktError) :=
  match methodScopeSetup fun_ parent_scope_id p struct_id with
  | none => none
  | some (p2, function_scope_id, method_id, err0) =>
    match typecheck_block fuel fun_.block function_scope_id p2 SafetyMode.Safe with
    | none => none
    | some (p3, block, err1) =>
      let (fun_return_type, err2) :=
        typecheck_typename fun_.return_type parent_scope_id p3
      let return_type :=
        if ty_beq fun_return_type .Unknown then
          match block.stmts with
          | CheckedStatement.Return ret :: _ => ret.ty
          | _ => Ty.Void
        else fun_return_type
      let checked_function := p3.funs.getD method_id default
      let p4 := { p3 with
        funs := p3.funs.set method_id
          { checked_function with block := block, return_type := return_type } }
      some (p4, errOr (errOr err0 err1) err2)

/-- The range condition of claim C4, stated in the claim's own terms:
the constant's mathematical value lies in the target integer type's range
(signed + signed: within `[T.min, T.max]`; signed target + unsigned constant:
`c ≤ T.max`; unsigned target + signed constant: `0 ≤ c ≤ T.max`; unsigned +
unsigned: `c ≤ T.max`); a non-integer target has no range. -/
def promote_fits_spec (c : IntegerConstant) (T : Ty) : Prop :=
  match c, T with
  | .Signed v, .I8 => -128 ≤ v ∧ v ≤ 127
  | .Signed v, .I16 => -32768 ≤ v ∧ v ≤ 32767
  | .Signed v, .I32 => -2147483648 ≤ v ∧ v ≤ 2147483647
  | .Signed v, .I64 => -9223372036854775808 ≤ v ∧ v ≤ 9223372036854775807
  | .Signed v, .U8 => 0 ≤ v ∧ v ≤ 255
  | .Signed v, .U16 => 0 ≤ v ∧ v ≤ 65535
  | .Signed v, .U32 => 0 ≤ v ∧ v ≤ 4294967295
  | .Signed v, .U64 => 0 ≤ v ∧ v ≤ 18446744073709551615
  | .Unsigned v, .I8 => v ≤ 127
  | .Unsigned v, .I16 => v ≤ 32767
  | .Unsigned v, .I32 => v ≤ 2147483647
  | .Unsigned v, .I64 => v ≤ 9223372036854775807
  | .Unsigned v, .U8 => v ≤ 255
  | .Unsigned v, .U16 => v ≤ 65535
  | .Unsigned v, .U32 => v ≤ 4294967295
  | .Unsigned v, .U64 => v ≤ 18446744073709551615
  | _, _ => False

/-- The project of claim C2's failing input: a record `S` (struct id 0, inner
scope 1) with one method `m(this, x: Bool)` whose `x` parameter requires a
label. -/
def c2_project : Project :=
  { funs := [⟨"m", Ty.Void,
      [⟨false, ⟨"this", Ty.Struct 0, false⟩⟩, ⟨true, ⟨"x", Ty.Bool, false⟩⟩],
      CheckedBlock.new, .Internal⟩],
    structs := [⟨"S", [], 1, .Internal, .Struct⟩],
    scopes := [⟨[], [("S", 0)], [], none⟩, ⟨[], [], [("m", 0)], some 0⟩] }

/-- The project of claim C7's counterexample: a record `P` with an `i64` field
`x`, and a variable `p : Struct 0` in the top-level scope. -/
def c7_project : Project :=
  { funs := [],
    structs := [⟨"P", [⟨"x", Ty.I64, false, ⟨0, 0, 0⟩⟩], 1, .Internal, .Struct⟩],
    scopes := [⟨[⟨"p", Ty.Struct 0, false⟩], [("P", 0)], [], none⟩,
      ⟨[], [], [], some 0⟩] }

/-- A receiver expression that type-checks to `Struct 0` while carrying an
error (its right operand is parser garbage): `p + <garbage>`. -/
def c7_receiver : Expression :=
  .BinaryOp (.Var "p" ⟨0, 0, 0⟩) .Add (.Garbage ⟨0, 0, 0⟩) ⟨0, 0, 0⟩

/-- The checked form of `c7_receiver`. -/
def c7_checked_receiver : CheckedExpression :=
  .BinaryOp (.Var ⟨"p", .Struct 0, false⟩) .Add .Garbage (.Struct 0)

/-- The project of claim C5's witness: the predeclared function `f` (id 0,
return type still `Unknown`) registered in the top-level scope. -/
def c5_project : Project :=
  { funs := [⟨"f", Ty.Unknown, [], CheckedBlock.new, .Internal⟩],
    structs := [],
    scopes := [⟨[], [], [("f", 0)], none⟩] }

/-- The parsed function of claim C5's witness: `f` with no declared return
type and the single statement `return true`. -/
def c5_fun : Function :=
  ⟨"f", ⟨0, 0, 0⟩, [], .mk [.Return (.Boolean true ⟨0, 0, 0⟩)], .Empty, .Internal⟩

/-- State of `c5_project` after `funScopeSetup` (function scope 1 created). -/
def c5_p2 : Project :=
  { funs := [⟨"f", Ty.Unknown, [], CheckedBlock.new, .Internal⟩],
    structs := [],
    scopes := [⟨[], [], [("f", 0)], none⟩, ⟨[], [], [], some 0⟩] }

/-- State of `c5_p2` after the body block added its own scope 2. -/
def c5_p3 : Project :=
  { funs := [⟨"f", Ty.Unknown, [], CheckedBlock.new, .Internal⟩],
    structs := [],
    scopes := [⟨[], [], [("f", 0)], none⟩, ⟨[], [], [], some 0⟩,
      ⟨[], [], [], some 1⟩] }

/-- The checked body of `c5_fun`. -/
def c5_block : CheckedBlock := .mk [CheckedStatement.Return (.Boolean true)]

/-- State of `c5_p3` with the inferred return type `Bool` and the checked block stored
back into function 0. -/
def c5_p4 : Project :=
  { funs := [⟨"f", Ty.Bool, [], c5_block, .Internal⟩],
    structs := [],
    scopes := [⟨[], [], [("f", 0)], none⟩, ⟨[], [], [], some 0⟩,
      ⟨[], [], [], some 1⟩] }

/-- Well-parented scope stores: every parent index is strictly below its
child's index (so parent chains strictly descend). -/
def scopes_well_parented (p : Project) : Prop :=
  ∀ i, (h : i < p.scopes.length) → ∀ q, (p.scopes.get ⟨i, h⟩).parent = some q → q < i

/-- Comparing a type against `Unknown` with `ty_beq` is propositional equality. -/
theorem ty_beq_unknown_iff (t : Ty) : ty_beq t Ty.Unknown = true ↔ t = Ty.Unknown := by
  cases t
  case Unknown => exact ⟨fun _ => rfl, fun _ => rfl⟩
  all_goals exact ⟨fun hb => Bool.noConfusion hb, fun he => Ty.noConfusion he⟩

set_option maxHeartbeats 1600000 in
/-- C4: `promote(c, T)` succeeds (returns a constant) iff the value of `c`
fits `T`'s range as enumerated in the claim, and on success the produced
constant has type `T` and denotes the same mathematical integer as `c`.  The
hypothesis restricts the payload to its machine width (`i64`/`u64`), which is
automatic in the source. -/
theorem c4_promote_value_preserving (c : IntegerConstant) (T : Ty)
    (h : integer_constant_in_range c) :
    ((∃ nc T2, c.promote T = some (some nc, T2)) ↔ promote_fits_spec c T)
    ∧ (∀ nc T2, c.promote T = some (some nc, T2) →
        nc.ty = T ∧ nc.toInt = c.toInt) := by
  obtain ⟨v⟩ | ⟨v⟩ := c <;> cases T <;>
    simp only [integer_constant_in_range] at h <;>
    simp only [IntegerConstant.promote] <;>
    split <;>
    simp_all [NumericConstant.ty, NumericConstant.toInt, IntegerConstant.toInt,
      as_i8, as_i16, as_i32, as_i64, as_u8, as_u16, as_u32, as_u64,
      promote_fits_spec, can_fit_integer] <;>
    omega

/-- Witness for C4 at the concrete input `Signed 300` against `U16`:
the hypotheses hold and the promoted constant is `U16 300`. -/
theorem c4_promote_value_preserving_witness :
    integer_constant_in_range (IntegerConstant.Signed 300)
    ∧ ((NumericConstant.U16 300).ty = Ty.U16
        ∧ (NumericConstant.U16 300).toInt = (IntegerConstant.Signed 300).toInt) :=
  ⟨by decide,
    (c4_promote_value_preserving (.Signed 300) .U16 (by decide)).2
      (.U16 300) .U16 rfl⟩

/-- C10: `IntegerConstant::promote` is total — it never reaches the
`"Bogus state"` panic arms (embedded as the outer `none`); moreover for every
non-integer target type `can_fit_integer` is false, so promote returns
`(None, Unknown)` before the panicking match. -/
theorem c10_promote_never_panics (c : IntegerConstant) (T : Ty) :
    (c.promote T).isSome = true
    ∧ (is_integer T = false → c.promote T = some (none, Ty.Unknown)) := by
  obtain ⟨v⟩ | ⟨v⟩ := c <;> cases T <;>
    refine ⟨?_, fun hni => ?_⟩ <;>
    simp only [IntegerConstant.promote, can_fit_integer, is_integer] at * <;>
    first
      | rfl
      | exact Bool.noConfusion hni
      | (split <;> rfl)

/-- Witness for C10 at the non-integer target `Bool`. -/
theorem c10_promote_never_panics_witness :
    is_integer Ty.Bool = false
    ∧ (IntegerConstant.Signed 5).promote Ty.Bool = some (none, Ty.Unknown) :=
  ⟨rfl, (c10_promote_never_panics (.Signed 5) .Bool).2 rfl⟩

/-- C1 counterexample: checking `OptionalSome(true)` produces a node whose
`ty()` is `Bool` — the inner type itself — not `Optional(Bool)` as the claim
states. -/
theorem c1_counterexample :
    typecheck_expression 2
        (.OptionalSome (.Boolean true ⟨0, 0, 0⟩) ⟨0, 0, 0⟩) 0 Project.new .Safe
      = some (Project.new, .OptionalSome (.Boolean true) Ty.Bool, none)
    ∧ (CheckedExpression.OptionalSome (.Boolean true) Ty.Bool).ty = Ty.Bool
    ∧ (CheckedExpression.OptionalSome (.Boolean true) Ty.Bool).ty
        ≠ Ty.Optional ((CheckedExpression.Boolean true).ty) :=
  ⟨rfl, rfl, fun h => Ty.noConfusion h⟩

/-- C1 (amended): type-checking `OptionalSome(e)` checks `e` and annotates the
resulting node with the inner expression's own type `T = e.ty()` — it does not
wrap it in `Optional`. -/
theorem c1_optional_some_keeps_inner_ty (fuel : Nat) (e : Expression) (sp : Span)
    (scope_id : ScopeId) (project : Project) (safety_mode : SafetyMode)
    (r : Project × CheckedExpression × Option JaktError)
    (h : typecheck_expression (fuel + 1) (.OptionalSome e sp) scope_id project
          safety_mode = some r) :
    ∃ p1 checked_expr err,
      typecheck_expression fuel e scope_id project safety_mode
          = some (p1, checked_expr, err)
      ∧ r = (p1, .OptionalSome checked_expr checked_expr.ty, err)
      ∧ r.2.1.ty = checked_expr.ty := by
  simp only [typecheck_expression] at h
  cases hin : typecheck_expression fuel e scope_id project safety_mode with
  | none => rw [hin] at h; exact absurd h (by simp)
  | some val =>
    obtain ⟨p1, checked_expr, err⟩ := val
    rw [hin] at h
    cases h
    exact ⟨p1, checked_expr, err, rfl, rfl, rfl⟩

/-- Witness for the amended C1 at `e = true`. -/
theorem c1_optional_some_keeps_inner_ty_witness :
    typecheck_expression 2 (.OptionalSome (.Boolean true ⟨0, 0, 0⟩) ⟨0, 0, 0⟩)
        0 Project.new .Safe
      = some (Project.new, .OptionalSome (.Boolean true) Ty.Bool, none)
    ∧ ∃ p1 checked_expr err,
        typecheck_expression 1 (.Boolean true ⟨0, 0, 0⟩) 0 Project.new .Safe
            = some (p1, checked_expr, err)
        ∧ (Project.new, CheckedExpression.OptionalSome (.Boolean true) Ty.Bool,
            (none : Option JaktError)) = (p1, .OptionalSome checked_expr checked_expr.ty, err)
        ∧ (Project.new, CheckedExpression.OptionalSome (.Boolean true) Ty.Bool,
            (none : Option JaktError)).2.1.ty = checked_expr.ty :=
  ⟨rfl, c1_optional_some_keeps_inner_ty 1 (.Boolean true ⟨0, 0, 0⟩) ⟨0, 0, 0⟩
    0 Project.new .Safe _ rfl⟩

/-- C6: dereferencing an expression of type `RawPtr(T)` produces a `UnaryOp`
node of type `T` in both safety modes; the
"dereference of raw pointer outside of unsafe block" error is emitted iff the
safety mode is `Safe`, and the checked node is produced even then. -/
theorem c6_dereference_unary_op (expr : CheckedExpression) (T : Ty) (span : Span)
    (scope_id : ScopeId) (project : Project) (safety_mode : SafetyMode)
    (h : expr.ty = Ty.RawPtr T) :
    typecheck_unary_operation expr .Dereference span scope_id project safety_mode
      = (.UnaryOp expr .Dereference T,
          if safety_mode = SafetyMode.Safe then
            some (.TypecheckError
              "dereference of raw pointer outside of unsafe block" span)
          else none) := by
  cases safety_mode <;> simp [typecheck_unary_operation, h]

/-- Witness for C6 at a concrete `RawPtr(I64)`-typed variable in `Safe` mode. -/
theorem c6_dereference_unary_op_witness :
    (CheckedExpression.Var ⟨"q", .RawPtr .I64, false⟩).ty = Ty.RawPtr Ty.I64
    ∧ typecheck_unary_operation (.Var ⟨"q", .RawPtr .I64, false⟩) .Dereference
        ⟨0, 0, 0⟩ 0 Project.new .Safe
      = (.UnaryOp (.Var ⟨"q", .RawPtr .I64, false⟩) .Dereference .I64,
          if SafetyMode.Safe = SafetyMode.Safe then
            some (.TypecheckError
              "dereference of raw pointer outside of unsafe block" ⟨0, 0, 0⟩)
          else none) :=
  ⟨rfl, c6_dereference_unary_op _ Ty.I64 _ 0 Project.new .Safe rfl⟩

/-- Project-preservation for the whole expression-checking family, by
induction on fuel: every function embedded from a `&Project` (shared borrow)
source function returns the project it was given. -/
theorem tc_pure_all : ∀ fuel : Nat,
    (∀ e s p m r, typecheck_expression fuel e s p m = some r → r.1 = p)
    ∧ (∀ es s p m it out er r,
        typecheck_vector_elements fuel es s p m it out er = some r → r.1 = p)
    ∧ (∀ its s p m ci ct er r,
        typecheck_tuple_items fuel its s p m ci ct er = some r → r.1 = p)
    ∧ (∀ c s sp p m r, typecheck_call fuel c s sp p m = some r → r.1 = p)
    ∧ (∀ ar s p m ca rt er r,
        typecheck_println_args fuel ar s p m ca rt er = some r → r.1 = p)
    ∧ (∀ cal ar i s p m ca er r,
        typecheck_call_args fuel cal ar i s p m ca er = some r → r.1 = p)
    ∧ (∀ c s sp f sid m r,
        typecheck_method_call fuel c s sp f sid m = some r → r.1 = f)
    ∧ (∀ cal ar i s f m ca er r,
        typecheck_method_call_args fuel cal ar i s f m ca er = some r → r.1 = f) := by
  intro fuel
  induction fuel with
  | zero =>
    exact ⟨fun _ _ _ _ _ h => Option.noConfusion h,
      fun _ _ _ _ _ _ _ _ h => Option.noConfusion h,
      fun _ _ _ _ _ _ _ _ h => Option.noConfusion h,
      fun _ _ _ _ _ _ h => Option.noConfusion h,
      fun _ _ _ _ _ _ _ _ h => Option.noConfusion h,
      fun _ _ _ _ _ _ _ _ _ h => Option.noConfusion h,
      fun _ _ _ _ _ _ _ h => Option.noConfusion h,
      fun _ _ _ _ _ _ _ _ _ h => Option.noConfusion h⟩
  | succ n ih =>
    obtain ⟨ihe, ihv, iht, ihc, ihp, iha, ihm, ihma⟩ := ih
    refine ⟨?_, ?_, ?_, ?_, ?_, ?_, ?_, ?_⟩
    · -- typecheck_expression
      intro e s p m r h
      cases e with
      | BinaryOp lhs op rhs span =>
        simp only [typecheck_expression] at h
        cases h1 : typecheck_expression n lhs s p m with
        | none => rw [h1] at h; exact Option.noConfusion h
        | some v1 =>
          obtain ⟨p1, cl, e1⟩ := v1
          rw [h1] at h; simp only [] at h
          cases h2 : typecheck_expression n rhs s p1 m with
          | none => rw [h2] at h; exact Option.noConfusion h
          | some v2 =>
            obtain ⟨p2, cr0, e2⟩ := v2
            rw [h2] at h; simp only [] at h
            cases h3 : try_promote_constant_expr_to_type cl.ty cr0 span with
            | none => rw [h3] at h; exact Option.noConfusion h
            | some v3 =>
              obtain ⟨cr, e3⟩ := v3
              rw [h3] at h; simp only [] at h
              cases h
              have hp := (ihe _ _ _ _ _ h2).trans (ihe _ _ _ _ _ h1)
              exact hp
      | UnaryOp e1 op span =>
        simp only [typecheck_expression] at h
        cases h1 : typecheck_expression n e1 s p m with
        | none => rw [h1] at h; exact Option.noConfusion h
        | some v1 =>
          obtain ⟨p1, ce, er⟩ := v1
          rw [h1] at h; simp only [] at h
          cases h
          have hp := ihe _ _ _ _ _ h1
          exact hp
      | OptionalNone span =>
        simp only [typecheck_expression] at h; cases h; rfl
      | OptionalSome e1 span =>
        simp only [typecheck_expression] at h
        cases h1 : typecheck_expression n e1 s p m with
        | none => rw [h1] at h; exact Option.noConfusion h
        | some v1 =>
          obtain ⟨p1, ce, er⟩ := v1
          rw [h1] at h; simp only [] at h
          cases h
          have hp := ihe _ _ _ _ _ h1
          exact hp
      | ForcedUnwrap e1 span =>
        simp only [typecheck_expression] at h
        cases h1 : typecheck_expression n e1 s p m with
        | none => rw [h1] at h; exact Option.noConfusion h
        | some v1 =>
          obtain ⟨p1, ce, er⟩ := v1
          rw [h1] at h; simp only [] at h
          split at h <;> (cases h; have hp := ihe _ _ _ _ _ h1; exact hp)
      | Boolean b span =>
        simp only [typecheck_expression] at h; cases h; rfl
      | Call call span =>
        simp only [typecheck_expression] at h
        cases h1 : typecheck_call n call s span p m with
        | none => rw [h1] at h; exact Option.noConfusion h
        | some v1 =>
          obtain ⟨p1, cc, er⟩ := v1
          rw [h1] at h; simp only [] at h
          cases h
          have hp := ihc _ _ _ _ _ _ h1
          exact hp
      | NumericConstant c span =>
        simp only [typecheck_expression] at h; cases h; rfl
      | QuotedString qs span =>
        simp only [typecheck_expression] at h; cases h; rfl
      | CharacterLiteral c span =>
        simp only [typecheck_expression] at h; cases h; rfl
      | Var v span =>
        simp only [typecheck_expression] at h
        split at h <;> (cases h; rfl)
      | Vector vec fill_size span =>
        simp only [typecheck_expression] at h
        cases fill_size with
        | some fse =>
          simp only [] at h
          cases h1 : typecheck_expression n fse s p m with
          | none => rw [h1] at h; exact Option.noConfusion h
          | some v1 =>
            obtain ⟨p1, cf, er0⟩ := v1
            rw [h1] at h; simp only [] at h
            cases h2 : typecheck_vector_elements n vec s p1 m .Unknown [] er0 with
            | none => rw [h2] at h; exact Option.noConfusion h
            | some v2 =>
              obtain ⟨p2, outp, ity, er⟩ := v2
              rw [h2] at h; simp only [] at h
              cases h
              have hp := (ihv _ _ _ _ _ _ _ _ h2).trans (ihe _ _ _ _ _ h1)
              exact hp
        | none =>
          simp only [] at h
          cases h2 : typecheck_vector_elements n vec s p m .Unknown [] none with
          | none => rw [h2] at h; exact Option.noConfusion h
          | some v2 =>
            obtain ⟨p2, outp, ity, er⟩ := v2
            rw [h2] at h; simp only [] at h
            cases h
            have hp := ihv _ _ _ _ _ _ _ _ h2
            exact hp
      | Tuple items span =>
        simp only [typecheck_expression] at h
        cases h1 : typecheck_tuple_items n items s p m [] [] none with
        | none => rw [h1] at h; exact Option.noConfusion h
        | some v1 =>
          obtain ⟨p1, ci, ct, er⟩ := v1
          rw [h1] at h; simp only [] at h
          cases h
          have hp := iht _ _ _ _ _ _ _ _ h1
          exact hp
      | IndexedExpression e1 idx span =>
        simp only [typecheck_expression] at h
        cases h1 : typecheck_expression n e1 s p m with
        | none => rw [h1] at h; exact Option.noConfusion h
        | some v1 =>
          obtain ⟨p1, ce, e1r⟩ := v1
          rw [h1] at h; simp only [] at h
          cases h2 : typecheck_expression n idx s p1 m with
          | none => rw [h2] at h; exact Option.noConfusion h
          | some v2 =>
            obtain ⟨p2, cidx, e2r⟩ := v2
            rw [h2] at h; simp only [] at h
            (repeat' split at h) <;>
              (cases h; have hp := (ihe _ _ _ _ _ h2).trans (ihe _ _ _ _ _ h1);
                exact hp)
      | IndexedTuple e1 idx span =>
        simp only [typecheck_expression] at h
        cases h1 : typecheck_expression n e1 s p m with
        | none => rw [h1] at h; exact Option.noConfusion h
        | some v1 =>
          obtain ⟨p1, ce, e1r⟩ := v1
          rw [h1] at h; simp only [] at h
          (repeat' split at h) <;> (cases h; have hp := ihe _ _ _ _ _ h1; exact hp)
      | IndexedStruct e1 name span =>
        simp only [typecheck_expression] at h
        cases h1 : typecheck_expression n e1 s p m with
        | none => rw [h1] at h; exact Option.noConfusion h
        | some v1 =>
          obtain ⟨p1, ce, e1r⟩ := v1
          rw [h1] at h; simp only [] at h
          (repeat' split at h) <;> (cases h; have hp := ihe _ _ _ _ _ h1; exact hp)
      | MethodCall e1 call span =>
        simp only [typecheck_expression] at h
        cases h1 : typecheck_expression n e1 s p m with
        | none => rw [h1] at h; exact Option.noConfusion h
        | some v1 =>
          obtain ⟨p1, ce, e1r⟩ := v1
          rw [h1] at h; simp only [] at h
          split at h
          · rename_i struct_id heq
            cases h2 : typecheck_method_call n call s span p1 struct_id m with
            | none => rw [h2] at h; exact Option.noConfusion h
            | some v2 =>
              obtain ⟨p2, cc, e2r⟩ := v2
              rw [h2] at h; simp only [] at h
              cases h
              have hp := (ihm _ _ _ _ _ _ _ h2).trans (ihe _ _ _ _ _ h1)
              exact hp
          · split at h
            · rename_i heq struct_id heq2
              cases h2 : typecheck_method_call n call 0 span p1 struct_id m with
              | none => rw [h2] at h; exact Option.noConfusion h
              | some v2 =>
                obtain ⟨p2, cc, e2r⟩ := v2
                rw [h2] at h; simp only [] at h
                cases h
                have hp := (ihm _ _ _ _ _ _ _ h2).trans (ihe _ _ _ _ _ h1)
                exact hp
            · cases h; have hp := ihe _ _ _ _ _ h1; exact hp
          · split at h
            · rename_i heq struct_id heq2
              cases h2 : typecheck_method_call n call 0 span p1 struct_id m with
              | none => rw [h2] at h; exact Option.noConfusion h
              | some v2 =>
                obtain ⟨p2, cc, e2r⟩ := v2
                rw [h2] at h; simp only [] at h
                cases h
                have hp := (ihm _ _ _ _ _ _ _ h2).trans (ihe _ _ _ _ _ h1)
                exact hp
            · cases h; have hp := ihe _ _ _ _ _ h1; exact hp
          · cases h; have hp := ihe _ _ _ _ _ h1; exact hp
      | Operator op span =>
        simp only [typecheck_expression] at h; cases h; rfl
      | Garbage span =>
        simp only [typecheck_expression] at h; cases h; rfl
    · -- typecheck_vector_elements
      intro es s p m it out er r h
      cases es with
      | nil => simp only [typecheck_vector_elements] at h; cases h; rfl
      | cons v rest =>
        simp only [typecheck_vector_elements] at h
        cases h1 : typecheck_expression n v s p m with
        | none => rw [h1] at h; exact Option.noConfusion h
        | some v1 =>
          obtain ⟨p1, ce, e1⟩ := v1
          rw [h1] at h; simp only [] at h
          split at h
          · exact (ihv _ _ _ _ _ _ _ _ h).trans (ihe _ _ _ _ _ h1)
          · split at h
            · exact (ihv _ _ _ _ _ _ _ _ h).trans (ihe _ _ _ _ _ h1)
            · exact (ihv _ _ _ _ _ _ _ _ h).trans (ihe _ _ _ _ _ h1)
    · -- typecheck_tuple_items
      intro its s p m ci ct er r h
      cases its with
      | nil => simp only [typecheck_tuple_items] at h; cases h; rfl
      | cons item rest =>
        simp only [typecheck_tuple_items] at h
        cases h1 : typecheck_expression n item s p m with
        | none => rw [h1] at h; exact Option.noConfusion h
        | some v1 =>
          obtain ⟨p1, ce, e1⟩ := v1
          rw [h1] at h; simp only [] at h
          exact (iht _ _ _ _ _ _ _ _ h).trans (ihe _ _ _ _ _ h1)
    · -- typecheck_call
      intro c s sp p m r h
      simp only [typecheck_call] at h
      split at h
      · cases h1 : typecheck_println_args n c.args s p m [] .Unknown none with
        | none => rw [h1] at h; exact Option.noConfusion h
        | some v1 =>
          obtain ⟨p1, ca, rt, er⟩ := v1
          rw [h1] at h; simp only [] at h
          cases h
          have hp := ihp _ _ _ _ _ _ _ _ h1
          exact hp
      · rcases hres : resolve_call c sp s p with ⟨callee, err0⟩
        rw [hres] at h; simp only [] at h
        cases callee with
        | none => cases h; rfl
        | some cal =>
          simp only [] at h
          split at h
          · cases h; rfl
          · cases h2 : typecheck_call_args n cal c.args 0 s p m [] err0 with
            | none => rw [h2] at h; exact Option.noConfusion h
            | some v2 =>
              obtain ⟨p1, ca, er⟩ := v2
              rw [h2] at h; simp only [] at h
              cases h
              have hp := iha _ _ _ _ _ _ _ _ _ h2
              exact hp
    · -- typecheck_println_args
      intro ar s p m ca rt er r h
      cases ar with
      | nil => simp only [typecheck_println_args] at h; cases h; rfl
      | cons arg rest =>
        simp only [typecheck_println_args] at h
        cases h1 : typecheck_expression n arg.2 s p m with
        | none => rw [h1] at h; exact Option.noConfusion h
        | some v1 =>
          obtain ⟨p1, ce, e1⟩ := v1
          rw [h1] at h; simp only [] at h
          exact (ihp _ _ _ _ _ _ _ _ h).trans (ihe _ _ _ _ _ h1)
    · -- typecheck_call_args
      intro cal ar i s p m ca er r h
      simp only [typecheck_call_args] at h
      split at h
      · rename_i hlt
        cases h1 : typecheck_expression n (ar.get ⟨i, hlt⟩).2 s p m with
        | none => rw [h1] at h; exact Option.noConfusion h
        | some v1 =>
          obtain ⟨p1, ca0, e1⟩ := v1
          rw [h1] at h; simp only [] at h
          cases h3 : try_promote_constant_expr_to_type
              (cal.params.getD i default).«variable».ty ca0
              (ar.get ⟨i, hlt⟩).2.span with
          | none => rw [h3] at h; exact Option.noConfusion h
          | some v3 =>
            obtain ⟨ca1, e3⟩ := v3
            rw [h3] at h; simp only [] at h
            exact (iha _ _ _ _ _ _ _ _ _ h).trans (ihe _ _ _ _ _ h1)
      · cases h; rfl
    · -- typecheck_method_call
      intro c s sp f sid m r h
      simp only [typecheck_method_call] at h
      rcases hres : resolve_call c sp (f.structs.getD sid default).scope_id f
        with ⟨callee, err0⟩
      rw [hres] at h; simp only [] at h
      cases callee with
      | none => cases h; rfl
      | some cal =>
        simp only [] at h
        split at h
        · cases h; rfl
        · cases h2 : typecheck_method_call_args n cal c.args 0 s f m [] err0 with
          | none => rw [h2] at h; exact Option.noConfusion h
          | some v2 =>
            obtain ⟨p1, ca, er⟩ := v2
            rw [h2] at h; simp only [] at h
            cases h
            have hp := ihma _ _ _ _ _ _ _ _ _ h2
            exact hp
    · -- typecheck_method_call_args
      intro cal ar i s f m ca er r h
      simp only [typecheck_method_call_args] at h
      split at h
      · rename_i hlt
        cases h1 : typecheck_expression n (ar.get ⟨i, hlt⟩).2 s f m with
        | none => rw [h1] at h; exact Option.noConfusion h
        | some v1 =>
          obtain ⟨p1, ca0, e1⟩ := v1
          rw [h1] at h; simp only [] at h
          cases h3 : try_promote_constant_expr_to_type
              (cal.params.getD (i + 1) default).«variable».ty ca0
              (ar.get ⟨i, hlt⟩).2.span with
          | none => rw [h3] at h; exact Option.noConfusion h
          | some v3 =>
            obtain ⟨ca1, e3⟩ := v3
            rw [h3] at h; simp only [] at h
            exact (ihma _ _ _ _ _ _ _ _ _ h).trans (ihe _ _ _ _ _ h1)
      · cases h; rfl

/-- Accumulating `none` with `errOr` keeps the earlier error. -/
theorem errOr_none (e : Option JaktError) : errOr e none = e := by
  cases e <;> rfl

/-- C9: expression checking never mutates the project.  In this state-passing
embedding of the source's `&Project` functions, `typecheck_expression`,
`typecheck_call` and `typecheck_method_call` (and, through `tc_pure_all`,
their argument and element loops) return the project they were given; only
statement and block checking create scopes or add bindings. -/
theorem c9_expression_checking_is_pure :
    (∀ fuel e scope_id project safety_mode r,
      typecheck_expression fuel e scope_id project safety_mode = some r →
        r.1 = project)
    ∧ (∀ fuel call scope_id span project safety_mode r,
      typecheck_call fuel call scope_id span project safety_mode = some r →
        r.1 = project)
    ∧ (∀ fuel call scope_id span file struct_id safety_mode r,
      typecheck_method_call fuel call scope_id span file struct_id safety_mode
          = some r → r.1 = file) :=
  ⟨fun fuel => (tc_pure_all fuel).1,
    fun fuel => (tc_pure_all fuel).2.2.2.1,
    fun fuel => (tc_pure_all fuel).2.2.2.2.2.2.1⟩

/-- Witness for C9 at a concrete run. -/
theorem c9_expression_checking_is_pure_witness :
    typecheck_expression 1 (.Boolean true ⟨0, 0, 0⟩) 0 Project.new .Safe
      = some (Project.new, .Boolean true, none)
    ∧ (Project.new, CheckedExpression.Boolean true, (none : Option JaktError)).1
      = Project.new :=
  ⟨rfl, c9_expression_checking_is_pure.1 1 (.Boolean true ⟨0, 0, 0⟩) 0
    Project.new .Safe _ rfl⟩

/-- The `println`/`eprintln` argument loop: the returned type is the initial
one for an empty argument list and `Void` otherwise, and when every argument
type-checks without error (at any fuel, in any project) the loop returns the
error it started with. -/
theorem println_args_props : ∀ fuel args s p m ca rt er p1 ca1 rt1 er1,
    typecheck_println_args fuel args s p m ca rt er = some (p1, ca1, rt1, er1) →
    (rt1 = if args.isEmpty then rt else Ty.Void)
    ∧ ((∀ a ∈ args, ∀ g q r2,
          typecheck_expression g a.2 s q m = some r2 → r2.2.2 = none) →
        er1 = er) := by
  intro fuel
  induction fuel with
  | zero => intro args s p m ca rt er p1 ca1 rt1 er1 h; exact Option.noConfusion h
  | succ n ih =>
    intro args s p m ca rt er p1 ca1 rt1 er1 h
    cases args with
    | nil =>
      simp only [typecheck_println_args] at h
      cases h
      exact ⟨rfl, fun _ => rfl⟩
    | cons arg rest =>
      simp only [typecheck_println_args] at h
      cases h1 : typecheck_expression n arg.2 s p m with
      | none => rw [h1] at h; exact Option.noConfusion h
      | some v1 =>
        obtain ⟨q1, ce, e1⟩ := v1
        rw [h1] at h; simp only [] at h
        have hrec := ih rest s q1 m (ca ++ [(arg.1, ce)]) .Void (errOr er e1)
          p1 ca1 rt1 er1 h
        constructor
        · have hr := hrec.1
          simp only [ite_self] at hr
          simp [hr]
        · intro hclean
          have he1 : e1 = none := hclean arg (by simp) n p (q1, ce, e1) h1
          have := hrec.2 (fun a ha => hclean a (by simp [ha]))
          rw [this, he1, errOr_none]

/-- C3 counterexample: `println` with zero arguments yields a `CheckedCall`
whose type is `Unknown`, not `Void` — `return_ty` is only set inside the
argument loop. -/
theorem c3_counterexample :
    typecheck_call 2 (Call.mk [] "println" []) 0 ⟨0, 0, 0⟩ Project.new .Safe
      = some (Project.new, CheckedCall.mk [] "println" [] Ty.Unknown, none)
    ∧ (CheckedCall.mk [] "println" [] Ty.Unknown).ty ≠ Ty.Void :=
  ⟨rfl, fun h => Ty.noConfusion h⟩

/-- C3 (amended): a call named `println` or `eprintln` performs no arity or
label check — its error output is exactly the accumulated argument-checking
errors (in particular `none` when every argument checks cleanly) — and its
type is `Void` when there is at least one argument but `Unknown` when there
are none. -/
theorem c3_println_sink (fuel : Nat) (call : Call) (scope_id : ScopeId)
    (span : Span) (project : Project) (safety_mode : SafetyMode)
    (p1 : Project) (cc : CheckedCall) (err : Option JaktError)
    (hname : call.name = "println" ∨ call.name = "eprintln")
    (h : typecheck_call fuel call scope_id span project safety_mode
          = some (p1, cc, err)) :
    cc.ty = (if call.args.isEmpty then Ty.Unknown else Ty.Void)
    ∧ ((∀ a ∈ call.args, ∀ g q r2,
          typecheck_expression g a.2 scope_id q safety_mode = some r2 →
            r2.2.2 = none) →
        err = none) := by
  cases fuel with
  | zero => exact Option.noConfusion h
  | succ n =>
    simp only [typecheck_call] at h
    have hcond : (call.name == "println" || call.name == "eprintln") = true := by
      rcases hname with hn | hn <;> simp [hn]
    rw [if_pos hcond] at h
    cases h1 : typecheck_println_args n call.args scope_id project safety_mode
        [] .Unknown none with
    | none => rw [h1] at h; exact Option.noConfusion h
    | some v1 =>
      obtain ⟨q1, ca1, rt1, er1⟩ := v1
      rw [h1] at h; simp only [] at h
      cases h
      have hprops := println_args_props n call.args scope_id project safety_mode
        [] .Unknown none _ _ _ _ h1
      exact ⟨hprops.1, fun hclean => hprops.2 hclean⟩

/-- Witness for the amended C3: `println("hi")` has type `Void` and emits no
error. -/
theorem c3_println_sink_witness :
    (CheckedCall.mk [] "println" [("", CheckedExpression.QuotedString "hi")]
        Ty.Void).ty
      = (if (Call.mk [] "println"
            [("", Expression.QuotedString "hi" ⟨0, 0, 0⟩)]).args.isEmpty then
          Ty.Unknown else Ty.Void)
    ∧ (none : Option JaktError) = none :=
  ⟨(c3_println_sink 3 (Call.mk [] "println"
      [("", Expression.QuotedString "hi" ⟨0, 0, 0⟩)]) 0 ⟨0, 0, 0⟩ Project.new
      .Safe Project.new
      (CheckedCall.mk [] "println" [("", CheckedExpression.QuotedString "hi")]
        Ty.Void) none (Or.inl rfl) rfl).1,
    (c3_println_sink 3 (Call.mk [] "println"
      [("", Expression.QuotedString "hi" ⟨0, 0, 0⟩)]) 0 ⟨0, 0, 0⟩ Project.new
      .Safe Project.new
      (CheckedCall.mk [] "println" [("", CheckedExpression.QuotedString "hi")]
        Ty.Void) none (Or.inl rfl) rfl).2
      (by
        intro a ha g q r2 h2
        simp only [Call.args, List.mem_singleton] at ha
        subst ha
        cases g with
        | zero => exact Option.noConfusion h2
        | succ g =>
          simp only [typecheck_expression] at h2
          cases h2
          rfl)⟩

/-- C7 counterexample: the receiver `p + <garbage>` checks to type `Struct 0`
while carrying a "garbage in expression" error, yet checking
`(p + <garbage>).x` returns the `IndexedStruct` node with **no** error — the
receiver's error is discarded on the successful field-lookup path. -/
theorem c7_counterexample :
    typecheck_expression 3 c7_receiver 0 c7_project .Safe
      = some (c7_project, c7_checked_receiver,
          some (.TypecheckError "garbage in expression" ⟨0, 0, 0⟩))
    ∧ typecheck_expression 4 (.IndexedStruct c7_receiver "x" ⟨0, 0, 0⟩) 0
        c7_project .Safe
      = some (c7_project, .IndexedStruct c7_checked_receiver "x" Ty.I64, none)
    ∧ some (JaktError.TypecheckError "garbage in expression" ⟨0, 0, 0⟩)
        ≠ (none : Option JaktError) :=
  ⟨rfl, rfl, fun h => Option.noConfusion h⟩

/-- C7 (amended): when the receiver of a field access checks to `Struct(id)`
and the field is found, the `IndexedStruct` node is returned with **no**
error: any error from the receiver subexpression is discarded on this early
`return (…, None)` path (errors propagate only on the miss paths). -/
theorem c7_field_access_drops_receiver_error (fuel : Nat) (e : Expression)
    (name : String) (span : Span) (scope_id : ScopeId) (project : Project)
    (safety_mode : SafetyMode) (r : Project × CheckedExpression × Option JaktError)
    (h : typecheck_expression (fuel + 1) (.IndexedStruct e name span) scope_id
          project safety_mode = some r) :
    ∀ p1 checked_expr err1,
      typecheck_expression fuel e scope_id project safety_mode
          = some (p1, checked_expr, err1) →
      ∀ struct_id, checked_expr.ty = Ty.Struct struct_id →
      ∀ member,
        (p1.structs.getD struct_id default).fields.find?
            (fun m => m.name == name) = some member →
        r = (p1, .IndexedStruct checked_expr name member.ty, none) := by
  intro p1 checked_expr err1 h1 struct_id hty member hfind
  simp only [typecheck_expression] at h
  rw [h1] at h; simp only [] at h
  rw [hty] at h; simp only [] at h
  rw [hfind] at h; simp only [] at h
  cases h
  rfl

/-- Witness for the amended C7 at the concrete counterexample data. -/
theorem c7_field_access_drops_receiver_error_witness :
    typecheck_expression 3 c7_receiver 0 c7_project .Safe
      = some (c7_project, c7_checked_receiver,
          some (.TypecheckError "garbage in expression" ⟨0, 0, 0⟩))
    ∧ c7_checked_receiver.ty = Ty.Struct 0
    ∧ (c7_project.structs.getD 0 default).fields.find?
        (fun m => m.name == "x") = some ⟨"x", Ty.I64, false, ⟨0, 0, 0⟩⟩
    ∧ (c7_project,
        CheckedExpression.IndexedStruct c7_checked_receiver "x" Ty.I64,
        (none : Option JaktError))
      = (c7_project, .IndexedStruct c7_checked_receiver "x"
          (CheckedVarDecl.mk "x" Ty.I64 false ⟨0, 0, 0⟩).ty, none) :=
  ⟨rfl, rfl, rfl,
    c7_field_access_drops_receiver_error 3 c7_receiver "x" ⟨0, 0, 0⟩ 0
      c7_project .Safe
      (c7_project, .IndexedStruct c7_checked_receiver "x" Ty.I64, none) rfl
      c7_project c7_checked_receiver
      (some (.TypecheckError "garbage in expression" ⟨0, 0, 0⟩)) rfl 0 rfl
      ⟨"x", Ty.I64, false, ⟨0, 0, 0⟩⟩ rfl⟩

/-- C2 (code evaluation at the failing input): in `c2_project` the method
`m(this, x: Bool)` has `params[1].requires_label = true` and the call
`m(wrong: true)` supplies the label `"wrong" ≠ "x"` on a non-variable
argument, yet `typecheck_method_call` emits **no** error: the non-variable
branch consults `params[idx].requires_label` — the hidden `this` at index 0 —
instead of `params[idx + 1]`. -/
theorem c2_method_label_check_off_by_one :
    ((c2_project.funs.getD 0 default).params.getD 1 default).requires_label = true
    ∧ ("wrong" : String)
        ≠ ((c2_project.funs.getD 0 default).params.getD 1 default).«variable».name
    ∧ (typecheck_method_call 5 (Call.mk [] "m" [("wrong", .Boolean true ⟨0, 0, 0⟩)])
          0 ⟨0, 0, 0⟩ c2_project 0 .Safe).map (fun r => r.2.2)
      = some none :=
  ⟨rfl, by decide, rfl⟩

/-- Reading back an element just written with `List.set` (in range). -/
theorem getD_set_self {α : Type} (l : List α) (i : Nat) (x d : α)
    (h : i < l.length) : (l.set i x).getD i d = x := by
  rw [List.getD_eq_getElem?_getD, List.getElem?_set_eq_of_lt x h]; rfl

/-- The fresh project's single top-level scope has no parent. -/
theorem project_new_well_parented : scopes_well_parented Project.new := by
  intro i h q hq
  cases i with
  | zero => exact Option.noConfusion hq
  | succ n => simp [Project.new] at h

/-- Calling `create_scope` with an existing parent id keeps every parent index
strictly below its scope's index: the new scope sits at the old length and
points strictly below it. -/
theorem create_scope_well_parented :
    ∀ p parent_id, parent_id < p.scopes.length → scopes_well_parented p →
      scopes_well_parented (p.create_scope parent_id).1 := by
  intro p parent_id hp hw i h q hq
  by_cases hi : i < p.scopes.length
  · apply hw i hi q
    rw [← hq]
    congr 1
    show p.scopes.get ⟨i, hi⟩
      = (p.scopes ++ [Scope.new (some parent_id)]).get ⟨i, h⟩
    simp only [List.get_eq_getElem]
    exact (List.getElem_append_left hi).symm
  · have hlen : i < p.scopes.length + 1 := by
      simpa [Project.create_scope] using h
    have hieq : i = p.scopes.length := by omega
    subst hieq
    have hx : (p.create_scope parent_id).1.scopes.get ⟨p.scopes.length, h⟩
        = Scope.new (some parent_id) := by
      simp only [Project.create_scope, List.get_eq_getElem]
      exact List.getElem_concat_length _ _ _ rfl _
    rw [hx] at hq
    cases hq
    exact hp

/-- Termination of the variable walk on a well-parented project: fuel
`sid + 1` (hence any larger fuel) completes the loop. -/
theorem find_var_fuel_terminates (p : Project) (hw : scopes_well_parented p) :
    ∀ sid, sid < p.scopes.length → ∀ fuel name, sid < fuel →
      (find_var_in_scope_fuel p fuel (some sid) name).isSome = true := by
  intro sid
  induction sid using Nat.strong_induction_on with
  | _ sid ih =>
    intro hsid fuel name hfuel
    cases fuel with
    | zero => omega
    | succ f =>
      simp only [find_var_in_scope_fuel]
      rw [dif_pos hsid]
      cases hfind : (p.scopes.get ⟨sid, hsid⟩).vars.find?
          (fun v => v.name == name) with
      | some v => rfl
      | none =>
        cases hpar : (p.scopes.get ⟨sid, hsid⟩).parent with
        | none => cases f <;> rfl
        | some q =>
          have hq := hw sid hsid q hpar
          exact ih q hq (Nat.lt_trans hq hsid) f name
            (Nat.lt_of_lt_of_le hq (Nat.lt_succ_iff.mp hfuel))

/-- Termination of the record-name walk (same argument). -/
theorem find_struct_fuel_terminates (p : Project) (hw : scopes_well_parented p) :
    ∀ sid, sid < p.scopes.length → ∀ fuel name, sid < fuel →
      (find_struct_in_scope_fuel p fuel (some sid) name).isSome = true := by
  intro sid
  induction sid using Nat.strong_induction_on with
  | _ sid ih =>
    intro hsid fuel name hfuel
    cases fuel with
    | zero => omega
    | succ f =>
      simp only [find_struct_in_scope_fuel]
      rw [dif_pos hsid]
      cases hfind : (p.scopes.get ⟨sid, hsid⟩).structs.find?
          (fun s => s.1 == name) with
      | some v => rfl
      | none =>
        cases hpar : (p.scopes.get ⟨sid, hsid⟩).parent with
        | none => cases f <;> rfl
        | some q =>
          have hq := hw sid hsid q hpar
          exact ih q hq (Nat.lt_trans hq hsid) f name
            (Nat.lt_of_lt_of_le hq (Nat.lt_succ_iff.mp hfuel))

/-- Termination of the function-name walk (same argument). -/
theorem find_function_fuel_terminates (p : Project) (hw : scopes_well_parented p) :
    ∀ sid, sid < p.scopes.length → ∀ fuel name, sid < fuel →
      (find_function_in_scope_fuel p fuel (some sid) name).isSome = true := by
  intro sid
  induction sid using Nat.strong_induction_on with
  | _ sid ih =>
    intro hsid fuel name hfuel
    cases fuel with
    | zero => omega
    | succ f =>
      simp only [find_function_in_scope_fuel]
      rw [dif_pos hsid]
      cases hfind : (p.scopes.get ⟨sid, hsid⟩).funs.find?
          (fun s => s.1 == name) with
      | some v => rfl
      | none =>
        cases hpar : (p.scopes.get ⟨sid, hsid⟩).parent with
        | none => cases f <;> rfl
        | some q =>
          have hq := hw sid hsid q hpar
          exact ih q hq (Nat.lt_trans hq hsid) f name
            (Nat.lt_of_lt_of_le hq (Nat.lt_succ_iff.mp hfuel))

/-- C8: every project built through `Project::new` and `Project::create_scope`
(with an existing parent scope) has every scope's parent index strictly below
its own index, so the parent-chain walks of `find_var_in_scope`,
`find_struct_in_scope` and `find_function_in_scope` terminate: the fueled
loops complete (return `some`) with fuel `sid + 1` — in particular with the
default fuel `scopes.len() + 1`. -/
theorem c8_scope_walks_terminate :
    scopes_well_parented Project.new
    ∧ (∀ p parent_id, parent_id < p.scopes.length → scopes_well_parented p →
        scopes_well_parented (p.create_scope parent_id).1)
    ∧ (∀ p, scopes_well_parented p → ∀ sid, sid < p.scopes.length →
        ∀ fuel name, sid < fuel →
          (find_var_in_scope_fuel p fuel (some sid) name).isSome = true
          ∧ (find_struct_in_scope_fuel p fuel (some sid) name).isSome = true
          ∧ (find_function_in_scope_fuel p fuel (some sid) name).isSome = true) :=
  ⟨project_new_well_parented, create_scope_well_parented,
    fun p hw sid hs fuel name hf =>
      ⟨find_var_fuel_terminates p hw sid hs fuel name hf,
        find_struct_fuel_terminates p hw sid hs fuel name hf,
        find_function_fuel_terminates p hw sid hs fuel name hf⟩⟩

/-- Witness for C8: the walks from the scope created on top of the fresh
project complete. -/
theorem c8_scope_walks_terminate_witness :
    (find_var_in_scope_fuel (Project.new.create_scope 0).1 2 (some 1) "x").isSome
        = true
    ∧ (find_struct_in_scope_fuel (Project.new.create_scope 0).1 2 (some 1)
        "x").isSome = true
    ∧ (find_function_in_scope_fuel (Project.new.create_scope 0).1 2 (some 1)
        "x").isSome = true :=
  c8_scope_walks_terminate.2.2 _
    (c8_scope_walks_terminate.2.1 Project.new 0 (by decide)
      c8_scope_walks_terminate.1)
    1 (by decide) 2 "x" (by decide)

/-- C5: for a function (or method) whose declared return type resolves to
`Unknown`, the stored return type is the type of the expression of a leading
`Return` statement of the checked block, and `Void` otherwise; a concrete
declared return type is stored unchanged. -/
theorem c5_return_type_inference :
    (∀ fuel fun_ parent_scope_id p p2 fsid fid err0 p3 block berr pr er,
      funScopeSetup fun_ parent_scope_id p = some (p2, fsid, fid, err0) →
      typecheck_block fuel fun_.block fsid p2 SafetyMode.Safe
          = some (p3, block, berr) →
      fid < p3.funs.length →
      typecheck_fun fuel fun_ parent_scope_id p = some (pr, er) →
      (((typecheck_typename fun_.return_type parent_scope_id p3).1 = Ty.Unknown →
        (pr.funs.getD fid default).return_type =
          (match block.stmts with
           | CheckedStatement.Return ret :: _ => ret.ty
           | _ => Ty.Void))
      ∧ ((typecheck_typename fun_.return_type parent_scope_id p3).1 ≠ Ty.Unknown →
        (pr.funs.getD fid default).return_type =
          (typecheck_typename fun_.return_type parent_scope_id p3).1)))
    ∧ (∀ fuel fun_ parent_scope_id p struct_id p2 fsid fid err0 p3 block berr pr er,
      methodScopeSetup fun_ parent_scope_id p struct_id
          = some (p2, fsid, fid, err0) →
      typecheck_block fuel fun_.block fsid p2 SafetyMode.Safe
          = some (p3, block, berr) →
      fid < p3.funs.length →
      typecheck_method fuel fun_ parent_scope_id p struct_id = some (pr, er) →
      (((typecheck_typename fun_.return_type parent_scope_id p3).1 = Ty.Unknown →
        (pr.funs.getD fid default).return_type =
          (match block.stmts with
           | CheckedStatement.Return ret :: _ => ret.ty
           | _ => Ty.Void))
      ∧ ((typecheck_typename fun_.return_type parent_scope_id p3).1 ≠ Ty.Unknown →
        (pr.funs.getD fid default).return_type =
          (typecheck_typename fun_.return_type parent_scope_id p3).1))) := by
  constructor
  · intro fuel fun_ parent_scope_id p p2 fsid fid err0 p3 block berr pr er
      h1 h2 hlen h4
    simp only [typecheck_fun] at h4
    rw [h1] at h4; simp only [] at h4
    rw [h2] at h4; simp only [] at h4
    cases h4
    simp only []
    constructor
    · intro hU
      have hb : ty_beq (typecheck_typename fun_.return_type parent_scope_id p3).1
          Ty.Unknown = true := (ty_beq_unknown_iff _).2 hU
      rw [getD_set_self _ _ _ _ hlen, if_pos hb]
    · intro hNe
      have hb : ty_beq (typecheck_typename fun_.return_type parent_scope_id p3).1
          Ty.Unknown = false := by
        cases hbb : ty_beq (typecheck_typename fun_.return_type parent_scope_id
            p3).1 Ty.Unknown with
        | false => rfl
        | true => exact absurd ((ty_beq_unknown_iff _).1 hbb) hNe
      rw [getD_set_self _ _ _ _ hlen, if_neg (by simp [hb])]
  · intro fuel fun_ parent_scope_id p struct_id p2 fsid fid err0 p3 block berr
      pr er h1 h2 hlen h4
    simp only [typecheck_method] at h4
    rw [h1] at h4; simp only [] at h4
    rw [h2] at h4; simp only [] at h4
    cases h4
    simp only []
    constructor
    · intro hU
      have hb : ty_beq (typecheck_typename fun_.return_type parent_scope_id p3).1
          Ty.Unknown = true := (ty_beq_unknown_iff _).2 hU
      rw [getD_set_self _ _ _ _ hlen, if_pos hb]
    · intro hNe
      have hb : ty_beq (typecheck_typename fun_.return_type parent_scope_id p3).1
          Ty.Unknown = false := by
        cases hbb : ty_beq (typecheck_typename fun_.return_type parent_scope_id
            p3).1 Ty.Unknown with
        | false => rfl
        | true => exact absurd ((ty_beq_unknown_iff _).1 hbb) hNe
      rw [getD_set_self _ _ _ _ hlen, if_neg (by simp [hb])]

/-- Witness for C5: the function `f` of `c5_project`, declared without a
return type and starting with `return true`, gets stored return type `Bool`. -/
theorem c5_return_type_inference_witness :
    funScopeSetup c5_fun 0 c5_project = some (c5_p2, 1, 0, none)
    ∧ typecheck_block 5 c5_fun.block 1 c5_p2 SafetyMode.Safe
        = some (c5_p3, c5_block, none)
    ∧ 0 < c5_p3.funs.length
    ∧ typecheck_fun 5 c5_fun 0 c5_project = some (c5_p4, none)
    ∧ (((typecheck_typename c5_fun.return_type 0 c5_p3).1 = Ty.Unknown →
        (c5_p4.funs.getD 0 default).return_type =
          (match c5_block.stmts with
           | CheckedStatement.Return ret :: _ => ret.ty
           | _ => Ty.Void))
      ∧ ((typecheck_typename c5_fun.return_type 0 c5_p3).1 ≠ Ty.Unknown →
        (c5_p4.funs.getD 0 default).return_type =
          (typecheck_typename c5_fun.return_type 0 c5_p3).1)) :=
  ⟨rfl, rfl, by decide, rfl,
    c5_return_type_inference.1 5 c5_fun 0 c5_project c5_p2 1 0 none c5_p3
      c5_block none c5_p4 none rfl rfl (by decide) rfl⟩
